import Mathlib

/-
Verification development for the Dust SDK OpenTelemetry instrumentation
(src/src/instrumentation.ts).  The two patched methods and the event-stream
wrapper are embedded as pure Lean functions that return an explicit trace of
tracing-API operations (span starts, attribute writes, status writes,
exception records, span ends, and events yielded to the consumer), together
with the value returned to the caller.  Promises are embedded as settled
outcomes (resolve / reject); the async event stream is embedded as the list
of events it yields followed by an optional terminal exception; JS numbers
are embedded as rationals (the token arithmetic, sums of quarters of string
lengths, is exact in double precision at any realistic size, so the rational
model is faithful); JSON.stringify images of opaque SDK values are carried
as strings.
-/

/-! Constants from src/constants.ts.  The attribute-name and event-type
values are pinned by the repository test suite (`semantic conventions` and
`event stream wrapping` describe blocks) and by the README span-mapping
table; for the few names the tests do not pin, the GenAI semantic-convention
spelling is used.  The claims only depend on these being distinct keys. -/

def SEMATTRS_GEN_AI_OPERATION_NAME : String := "gen_ai.operation.name"

def SEMATTRS_GEN_AI_PROVIDER_NAME : String := "gen_ai.provider.name"

def SEMATTRS_GEN_AI_AGENT_ID : String := "gen_ai.agent.id"

def SEMATTRS_GEN_AI_AGENT_NAME : String := "gen_ai.agent.name"

def SEMATTRS_GEN_AI_AGENT_DESCRIPTION : String := "gen_ai.agent.description"

def SEMATTRS_GEN_AI_CONVERSATION_ID : String := "gen_ai.conversation.id"

def SEMATTRS_GEN_AI_RESPONSE_ID : String := "gen_ai.response.id"

def SEMATTRS_GEN_AI_INPUT_MESSAGES : String := "gen_ai.input.messages"

def SEMATTRS_GEN_AI_OUTPUT_MESSAGES : String := "gen_ai.output.messages"

def SEMATTRS_GEN_AI_USAGE_OUTPUT_TOKENS : String := "gen_ai.usage.output_tokens"

def SEMATTRS_GEN_AI_RESPONSE_FINISH_REASONS : String := "gen_ai.response.finish_reasons"

def SEMATTRS_GEN_AI_TOOL_NAME : String := "gen_ai.tool.name"

def SEMATTRS_GEN_AI_TOOL_CALL_ID : String := "gen_ai.tool.call.id"

def SEMATTRS_GEN_AI_TOOL_CALL_ARGUMENTS : String := "gen_ai.tool.call.arguments"

def SEMATTRS_GEN_AI_TOOL_CALL_RESULT : String := "gen_ai.tool.call.result"

def SEMATTRS_GEN_AI_RETRIEVAL_DOCUMENTS : String := "gen_ai.retrieval.documents"

def SEMATTRS_ERROR_TYPE : String := "error.type"

def SEMATTRS_ENDUSER_ID : String := "enduser.id"

def SEMATTRS_DUST_AGENT_VERSION : String := "dust.agent.version"

def SEMATTRS_DUST_AGENT_VERSION_CREATED_AT : String := "dust.agent.version_created_at"

def GEN_AI_OPERATION_INVOKE_AGENT : String := "invoke_agent"

def GEN_AI_OPERATION_EXECUTE_TOOL : String := "execute_tool"

def GEN_AI_PROVIDER_DUST : String := "dust"

def DUST_EVENT_GENERATION_TOKENS : String := "generation_tokens"

def DUST_EVENT_AGENT_ACTION_SUCCESS : String := "agent_action_success"

def DUST_EVENT_AGENT_MESSAGE_SUCCESS : String := "agent_message_success"

def DUST_EVENT_AGENT_ERROR : String := "agent_error"

def DUST_EVENT_USER_MESSAGE_ERROR : String := "user_message_error"

/-! JS helpers: truthiness of optional strings, and the `a || b` fallback
(an empty string is falsy in JS, so it falls through to the default). -/

def truthyS : Option String → Bool
  | some s => s != ""
  | none => false

def jsOr : Option String → String → String
  | some s, d => if s = "" then d else s
  | none, d => d

def jsOrS (s d : String) : String := if s = "" then d else s

/-- Minimal model of the JSON string escaping performed by JSON.stringify on
the characters that matter here (quote, backslash, and the common control
characters); other characters are passed through. -/
def jsonEscapeChar (c : Char) : String :=
  if c = '"' then "\\\""
  else if c = '\\' then "\\\\"
  else if c = '\n' then "\\n"
  else if c = '\r' then "\\r"
  else if c = '\t' then "\\t"
  else String.singleton c

def jsonEscape (s : String) : String :=
  String.join (s.data.map jsonEscapeChar)

/-- JSON.stringify of the single-element user message array built at
instrumentation.ts line 93. -/
def renderInputMessages (content : String) : String :=
  "[\x7b\"role\":\"user\",\"content\":\"" ++ jsonEscape content ++ "\"\x7d]"

/-- JSON.stringify of the single-element assistant message array built at
instrumentation.ts line 317. -/
def renderOutputMessages (content : String) : String :=
  "[\x7b\"role\":\"assistant\",\"content\":\"" ++ jsonEscape content ++ "\"\x7d]"

/-! Configuration (src/types.ts + instrumentation.ts `_getConfig`):
unset fields default to enabled = true and both capture flags = false. -/

structure RawConfig where
  enabled : Option Bool
  captureMessageContent : Option Bool
  captureSystemInstructions : Option Bool
deriving DecidableEq, Repr

structure ResolvedConfig where
  enabled : Bool
  captureMessageContent : Bool
  captureSystemInstructions : Bool
deriving DecidableEq, Repr

/-- The `_getConfig` defaulting (instrumentation.ts lines 50-58). -/
def resolveConfig (c : RawConfig) : ResolvedConfig :=
  { enabled := c.enabled.getD true,
    captureMessageContent := c.captureMessageContent.getD false,
    captureSystemInstructions := c.captureSystemInstructions.getD false }

/-! Data model of events (src/types.ts `AgentEvent`), carrying exactly the
fields the instrumentation reads.  Opaque SDK values that the code only
ever passes to JSON.stringify (tool params, non-array tool output, array
items, retrieval documents) are carried by their stringify images. -/

structure OutputItem where
  type : String
  documents : Option (List String)
  serialized : String
deriving DecidableEq, Repr

inductive ActionOutput where
  | arr (items : List OutputItem)
  | nonArray (serialized : String)
deriving DecidableEq, Repr

/-- JSON.stringify image of a (truthy) tool output value. -/
def ActionOutput.render : ActionOutput → String
  | .arr items => "[" ++ String.intercalate "," (items.map OutputItem.serialized) ++ "]"
  | .nonArray s => s

structure AgentAction where
  sId : Option String
  functionCallName : Option String
  functionCallId : Option String
  params : Option String
  output : Option ActionOutput
deriving DecidableEq, Repr

structure AgentConfigInfo where
  name : Option String
  description : Option String
  version : Option Int
  versionCreatedAt : Option String
deriving DecidableEq, Repr

structure EventMessage where
  configuration : Option AgentConfigInfo
deriving DecidableEq, Repr

structure ErrInfo where
  code : Option String
  message : Option String
deriving DecidableEq, Repr

structure AgentEvent where
  type : String
  text : Option String
  action : Option AgentAction
  configurationId : Option String
  messageId : Option String
  message : Option EventMessage
  error : Option ErrInfo
deriving DecidableEq, Repr

/-- A JS exception (an Error object): its name and message. -/
structure JsError where
  name : String
  message : String
deriving DecidableEq, Repr

/-! The tracing side: attribute values and the operation trace emitted
against the tracing API.  `undefVal` records a setAttribute call made with an
undefined value; per the OpenTelemetry JS API contract such calls do not
set an attribute on the span. -/

inductive AttrVal where
  | str (s : String)
  | num (q : ℚ)
  | strList (l : List String)
  | undefVal
deriving DecidableEq, Repr

inductive TraceItem where
  | startSpan (sid : Nat) (parent : Option Nat) (name : String)
      (attrs : List (String × AttrVal))
  | setAttr (sid : Nat) (key : String) (v : AttrVal)
  | setStatusError (sid : Nat) (msg : String)
  | recordException (sid : Nat) (name : String) (msg : String)
  | endSpan (sid : Nat)
  | yieldEvent (e : AgentEvent)
deriving DecidableEq, Repr

/-! Embedding of `_wrapEventStream` (instrumentation.ts lines 203-346).
The generator body is split into: per-event side effects plus running
state (the switch at lines 217-309 together with the yield at line 311),
the normal flush after exhaustion (lines 314-336), and the catch block
(lines 337-345). -/

structure WrapState where
  outputTokens : ℚ
  outputContent : String
  finishReason : Option String
  retrievalDocuments : List String
  nextId : Nat
deriving DecidableEq, Repr

def initWrapState (startId : Nat) : WrapState :=
  { outputTokens := 0, outputContent := "", finishReason := none,
    retrievalDocuments := [], nextId := startId }

/-- Retrieval documents gathered from a truthy tool output
(instrumentation.ts lines 261-269): from an array output, spread every
`retrieval_documents` item with truthy documents, and push every
`resource` item whole. -/
def outputDocs : Option ActionOutput → List String
  | some (.arr items) =>
    items.foldl
      (fun acc it =>
        if it.type = "retrieval_documents" then
          match it.documents with
          | some ds => acc ++ ds
          | none => acc
        else if it.type = "resource" then acc ++ [it.serialized]
        else acc)
      []
  | some (.nonArray _) => []
  | none => []

/-- Initial attributes of a tool child span (instrumentation.ts lines
231-242). -/
def toolStartAttrs (a : AgentAction) : List (String × AttrVal) :=
  [(SEMATTRS_GEN_AI_OPERATION_NAME, .str GEN_AI_OPERATION_EXECUTE_TOOL),
   (SEMATTRS_GEN_AI_PROVIDER_NAME, .str GEN_AI_PROVIDER_DUST),
   (SEMATTRS_GEN_AI_TOOL_NAME, .str (jsOr a.functionCallName "unknown")),
   (SEMATTRS_GEN_AI_TOOL_CALL_ID, .str (jsOr a.functionCallId (jsOr a.sId "unknown")))]

/-- Content-capture attributes of a tool child span (instrumentation.ts
lines 246-259). -/
def toolContentItems (cfg : ResolvedConfig) (tid : Nat) (a : AgentAction) :
    List TraceItem :=
  if cfg.captureMessageContent then
    (match a.params with
     | some p => [TraceItem.setAttr tid SEMATTRS_GEN_AI_TOOL_CALL_ARGUMENTS (.str p)]
     | none => [])
    ++ (match a.output with
        | some o => [TraceItem.setAttr tid SEMATTRS_GEN_AI_TOOL_CALL_RESULT (.str o.render)]
        | none => [])
  else []

/-- Attributes recorded on the parent span from the configuration carried
by an agent_message_success event (instrumentation.ts lines 283-297). -/
def msgConfigItems (pid : Nat) : Option EventMessage → List TraceItem
  | some m =>
    match m.configuration with
    | some c =>
      (if truthyS c.name then
         [TraceItem.setAttr pid SEMATTRS_GEN_AI_AGENT_NAME (.str (c.name.getD ""))]
       else [])
      ++ (if truthyS c.description then
            [TraceItem.setAttr pid SEMATTRS_GEN_AI_AGENT_DESCRIPTION
               (.str (c.description.getD ""))]
          else [])
      ++ (match c.version with
          | some v => [TraceItem.setAttr pid SEMATTRS_DUST_AGENT_VERSION (.num (v : ℚ))]
          | none => [])
      ++ (if truthyS c.versionCreatedAt then
            [TraceItem.setAttr pid SEMATTRS_DUST_AGENT_VERSION_CREATED_AT
               (.str (c.versionCreatedAt.getD ""))]
          else [])
    | none => []
  | none => []

/-- The complete trace segment of one tool child span (instrumentation.ts
lines 229-271): span start with its initial attributes, opt-in content
attributes, and the immediate end. -/
def toolItems (cfg : ResolvedConfig) (pid tid : Nat) (a : AgentAction) :
    List TraceItem :=
  TraceItem.startSpan tid (some pid) GEN_AI_OPERATION_EXECUTE_TOOL (toolStartAttrs a)
    :: (toolContentItems cfg tid a ++ [TraceItem.endSpan tid])

/-- Parent-span attribute writes of an agent_message_success event
(instrumentation.ts lines 277-297). -/
def msgSuccessItems (pid : Nat) (e : AgentEvent) : List TraceItem :=
  (if truthyS e.configurationId then
     [TraceItem.setAttr pid SEMATTRS_GEN_AI_AGENT_ID
        (.str (e.configurationId.getD ""))]
   else [])
  ++ (if truthyS e.messageId then
        [TraceItem.setAttr pid SEMATTRS_GEN_AI_RESPONSE_ID
           (.str (e.messageId.getD ""))]
      else [])
  ++ msgConfigItems pid e.message

/-- Parent-span writes of an agent_error or user_message_error event
(instrumentation.ts lines 300-307). -/
def errorItems (pid : Nat) (e : AgentEvent) : List TraceItem :=
  [TraceItem.setStatusError pid (jsOr (e.error.bind ErrInfo.message) "Unknown error"),
   TraceItem.setAttr pid SEMATTRS_ERROR_TYPE
     (.str (jsOr (e.error.bind ErrInfo.code) "unknown"))]

/-- One iteration of the wrapper loop body: the switch on the event
discriminant (instrumentation.ts lines 217-309).  Returns the trace items
emitted before the event is yielded, and the updated running state. -/
def eventSideEffects (cfg : ResolvedConfig) (pid : Nat) (st : WrapState)
    (e : AgentEvent) : List TraceItem × WrapState :=
  if e.type = DUST_EVENT_GENERATION_TOKENS then
    match e.text with
    | some t =>
      if t = "" then ([], st)
      else
        ([],
         { st with
           outputTokens := st.outputTokens + (t.length : ℚ) / 4,
           outputContent :=
             if cfg.captureMessageContent then st.outputContent ++ t
             else st.outputContent })
    | none => ([], st)
  else if e.type = DUST_EVENT_AGENT_ACTION_SUCCESS then
    match e.action with
    | some a =>
      (toolItems cfg pid st.nextId a,
       { st with
         nextId := st.nextId + 1,
         retrievalDocuments := st.retrievalDocuments ++ outputDocs a.output })
    | none => ([], st)
  else if e.type = DUST_EVENT_AGENT_MESSAGE_SUCCESS then
    (msgSuccessItems pid e, { st with finishReason := some "stop" })
  else if e.type = DUST_EVENT_AGENT_ERROR ∨ e.type = DUST_EVENT_USER_MESSAGE_ERROR then
    (errorItems pid e, { st with finishReason := some "error" })
  else ([], st)

/-- JSON.stringify image of the batched retrieval-document list. -/
def renderRetrievalDocuments (docs : List String) : String :=
  "[" ++ String.intercalate "," docs ++ "]"

/-- The final-attribute writes performed after the underlying stream is
exhausted without an exception (instrumentation.ts lines 314-334). -/
def flushAttrItems (cfg : ResolvedConfig) (pid : Nat) (st : WrapState) :
    List TraceItem :=
  (if cfg.captureMessageContent ∧ st.outputContent ≠ "" then
     [TraceItem.setAttr pid SEMATTRS_GEN_AI_OUTPUT_MESSAGES
        (.str (renderOutputMessages st.outputContent))]
   else [])
  ++ (if 0 < st.outputTokens then
        [TraceItem.setAttr pid SEMATTRS_GEN_AI_USAGE_OUTPUT_TOKENS
           (.num st.outputTokens)]
      else [])
  ++ (match st.finishReason with
      | some r =>
        if r = "" then []
        else [TraceItem.setAttr pid SEMATTRS_GEN_AI_RESPONSE_FINISH_REASONS
               (.strList [r])]
      | none => [])
  ++ (if st.retrievalDocuments = [] then []
      else [TraceItem.setAttr pid SEMATTRS_GEN_AI_RETRIEVAL_DOCUMENTS
             (.str (renderRetrievalDocuments st.retrievalDocuments))])

/-- The whole normal epilogue (instrumentation.ts lines 314-336): the final
attributes followed by ending the parent span. -/
def flushTrace (cfg : ResolvedConfig) (pid : Nat) (st : WrapState) :
    List TraceItem :=
  flushAttrItems cfg pid st ++ [TraceItem.endSpan pid]

/-- The catch block of the wrapper (instrumentation.ts lines 337-345):
record the exception, set error status, end the parent span; the exception
is then re-thrown to the consumer. -/
def errorEpilogue (pid : Nat) (err : JsError) : List TraceItem :=
  [TraceItem.recordException pid err.name err.message,
   TraceItem.setStatusError pid err.message,
   TraceItem.endSpan pid]

/-- The wrapper loop: process each underlying event, yield it, and on
exhaustion run the flush (or, when the underlying stream terminates by
throwing, the catch block). -/
def wrapGo (cfg : ResolvedConfig) (pid : Nat) (st : WrapState) :
    List AgentEvent → Option JsError → List TraceItem
  | [], none => flushTrace cfg pid st
  | [], some err => errorEpilogue pid err
  | e :: rest, err =>
    (eventSideEffects cfg pid st e).1
      ++ (TraceItem.yieldEvent e :: wrapGo cfg pid (eventSideEffects cfg pid st e).2 rest err)

/-- Embedding of `_wrapEventStream`: the full operation trace produced by
consuming the wrapper to completion, for an underlying stream that yields
`events` and then either ends normally (`err = none`) or throws `err`.
Child-span ids are allocated from `pid + 1`. -/
def wrapEventStream (cfg : ResolvedConfig) (pid : Nat)
    (events : List AgentEvent) (err : Option JsError) : List TraceItem :=
  wrapGo cfg pid (initWrapState (pid + 1)) events err

/-- The events the consumer receives from a trace. -/
def yieldedEvents (trace : List TraceItem) : List AgentEvent :=
  trace.filterMap fun it =>
    match it with
    | TraceItem.yieldEvent e => some e
    | _ => none

/-! Embedding of the patched methods.  A call's settlement is a resolve or
a reject; the Dust SDK Result object is carried with its `isErr` method
(possibly absent, as the code guards `result.isErr && result.isErr()`),
its error payload, and its (possibly absent) value. -/

inductive CallOutcome (α : Type) where
  | resolve (v : α)
  | reject (e : JsError)
deriving DecidableEq, Repr

structure ResultError where
  type : Option String
  message : Option String
deriving DecidableEq, Repr

structure DustResult (α : Type) where
  isErrDefined : Bool
  isErrValue : Bool
  error : Option ResultError
  value : Option α
deriving DecidableEq, Repr

/-- The guard `result.isErr && result.isErr()` (instrumentation.ts lines
102 and 166). -/
def DustResult.errFlagged {α : Type} (r : DustResult α) : Bool :=
  r.isErrDefined && r.isErrValue

/-- Arguments of createConversation, reduced to the fields the
instrumentation reads: the optional-chained first mention configurationId,
the context email, and the message content. -/
structure CCArgs where
  mentionConfigId : Option String
  email : Option String
  content : Option String
deriving DecidableEq, Repr

/-- The createConversation result value: the optional-chained
`conversation?.sId` and `message?.sId` the instrumentation reads
(instrumentation.ts lines 108-115). -/
structure CCValue where
  conversationSId : Option String
  messageSId : Option String
deriving DecidableEq, Repr

/-- An Option String passed straight to setAttribute: undefined when
absent (the OpenTelemetry API drops such writes). -/
def optAttr : Option String → AttrVal
  | some s => .str s
  | none => .undefVal

/-- Items of the shared promise catch blocks of both patched methods
(instrumentation.ts lines 120-129 and 189-198). -/
def catchItems (sid : Nat) (err : JsError) : List TraceItem :=
  [TraceItem.recordException sid err.name err.message,
   TraceItem.setStatusError sid err.message,
   TraceItem.setAttr sid SEMATTRS_ERROR_TYPE (.str (jsOrS err.name "Error")),
   TraceItem.endSpan sid]

/-- Items emitted on an error-flagged result (instrumentation.ts lines
102-107 and 166-172): error status and error.type from the result error. -/
def errFlaggedItems (sid : Nat) (e : Option ResultError) : List TraceItem :=
  [TraceItem.setStatusError sid (jsOr (e.bind ResultError.message) "Unknown error"),
   TraceItem.setAttr sid SEMATTRS_ERROR_TYPE
     (.str (jsOr (e.bind ResultError.type) "unknown"))]

/-- Span-start portion of patchedCreateConversation (instrumentation.ts
lines 69-95): the invoke_agent span with its initial attributes, the
optional enduser id, and the opt-in input-message content. -/
def ccStartItems (cfg : ResolvedConfig) (args : CCArgs) : List TraceItem :=
  TraceItem.startSpan 0 none
      ("invoke_agent " ++ jsOr args.mentionConfigId "unknown")
      [(SEMATTRS_GEN_AI_OPERATION_NAME, .str GEN_AI_OPERATION_INVOKE_AGENT),
       (SEMATTRS_GEN_AI_PROVIDER_NAME, .str GEN_AI_PROVIDER_DUST),
       (SEMATTRS_GEN_AI_AGENT_ID, .str (jsOr args.mentionConfigId "unknown"))]
    :: ((if truthyS args.email then
           [TraceItem.setAttr 0 SEMATTRS_ENDUSER_ID (.str (args.email.getD ""))]
         else [])
        ++ (if cfg.captureMessageContent ∧ truthyS args.content then
              [TraceItem.setAttr 0 SEMATTRS_GEN_AI_INPUT_MESSAGES
                 (.str (renderInputMessages (args.content.getD "")))]
            else []))

/-- Embedding of patchedCreateConversation (instrumentation.ts lines
60-132): given the resolved settlement of the original call, the operation
trace emitted and the settlement returned to the caller.  The single span
it may create has id 0. -/
def patchedCreateConversation (raw : RawConfig) (args : CCArgs)
    (outcome : CallOutcome (DustResult CCValue)) :
    List TraceItem × CallOutcome (DustResult CCValue) :=
  let cfg := resolveConfig raw
  if cfg.enabled then
    match outcome with
    | .reject err => (ccStartItems cfg args ++ catchItems 0 err, .reject err)
    | .resolve r =>
      if r.errFlagged then
        (ccStartItems cfg args ++ errFlaggedItems 0 r.error
           ++ [TraceItem.endSpan 0],
         .resolve r)
      else
        (ccStartItems cfg args
           ++ (match r.value with
               | some v =>
                 TraceItem.setAttr 0 SEMATTRS_GEN_AI_CONVERSATION_ID
                     (optAttr v.conversationSId)
                   :: (if truthyS v.messageSId then
                         [TraceItem.setAttr 0 SEMATTRS_GEN_AI_RESPONSE_ID
                            (.str (v.messageSId.getD ""))]
                       else [])
               | none => [])
           ++ [TraceItem.endSpan 0],
         .resolve r)
  else ([], outcome)

/-- Arguments of streamAgentAnswerEvents, reduced to the conversation sId
read at instrumentation.ts line 155. -/
structure StreamArgs where
  conversationSId : String
deriving DecidableEq, Repr

/-- The streamAgentAnswerEvents result value: its event stream, embedded
as the events the underlying stream yields followed by an optional
terminal exception. -/
structure StreamValue where
  events : List AgentEvent
  streamError : Option JsError
deriving DecidableEq, Repr

/-- The TypeError raised when the code dereferences `result.value.eventStream`
on a non-error result with an absent value (instrumentation.ts line 177);
it is handled by the chained catch block. -/
def eventStreamTypeError : JsError :=
  { name := "TypeError", message := "Cannot read properties of undefined" }

/-- Span-start portion of patchedStreamAgentAnswerEvents (instrumentation.ts
lines 144-159). -/
def sAStartItems (args : StreamArgs) : List TraceItem :=
  [TraceItem.startSpan 0 none "invoke_agent agent"
     [(SEMATTRS_GEN_AI_OPERATION_NAME, .str GEN_AI_OPERATION_INVOKE_AGENT),
      (SEMATTRS_GEN_AI_PROVIDER_NAME, .str GEN_AI_PROVIDER_DUST),
      (SEMATTRS_GEN_AI_CONVERSATION_ID, .str args.conversationSId)]]

/-- Embedding of patchedStreamAgentAnswerEvents (instrumentation.ts lines
134-201): the operation trace (including, in the success case, the full
trace of the wrapper consuming the replaced event stream to completion)
and the settlement returned to the caller.  The returned success value
carries the event list the wrapped stream yields to the consumer; its
terminal exception, if any, is re-raised unchanged. -/
def patchedStreamAgentAnswerEvents (raw : RawConfig) (args : StreamArgs)
    (outcome : CallOutcome (DustResult StreamValue)) :
    List TraceItem × CallOutcome (DustResult StreamValue) :=
  let cfg := resolveConfig raw
  if cfg.enabled then
    match outcome with
    | .reject err => (sAStartItems args ++ catchItems 0 err, .reject err)
    | .resolve r =>
      if r.errFlagged then
        (sAStartItems args ++ errFlaggedItems 0 r.error ++ [TraceItem.endSpan 0],
         .resolve r)
      else
        match r.value with
        | some v =>
          (sAStartItems args ++ wrapEventStream cfg 0 v.events v.streamError,
           .resolve
             { r with
               value := some
                 { events := yieldedEvents (wrapEventStream cfg 0 v.events v.streamError),
                   streamError := v.streamError } })
        | none =>
          (sAStartItems args ++ catchItems 0 eventStreamTypeError,
           .reject eventStreamTypeError)
  else ([], outcome)

/-! Trace queries used by the theorems. -/

/-- How many times span `sid` is ended in a trace. -/
def countEnd (trace : List TraceItem) (sid : Nat) : Nat :=
  trace.countP fun it =>
    match it with
    | TraceItem.endSpan s => s = sid
    | _ => false

/-- The ids of the spans started in a trace. -/
def startedIds (trace : List TraceItem) : List Nat :=
  trace.filterMap fun it =>
    match it with
    | TraceItem.startSpan sid _ _ _ => some sid
    | _ => none

/-- Whether an error status is set on span `sid` somewhere in the trace. -/
def hasErrorStatus (trace : List TraceItem) (sid : Nat) : Bool :=
  trace.any fun it =>
    match it with
    | TraceItem.setStatusError s _ => s = sid
    | _ => false

/-- Whether span `sid` carries an attribute with key `key` on the span,
counting both start-time attributes and later setAttribute calls, and
honouring the OpenTelemetry API rule that a write of an undefined value
sets nothing. -/
def attrSetB (trace : List TraceItem) (sid : Nat) (key : String) : Bool :=
  trace.any fun it =>
    match it with
    | TraceItem.setAttr s k v => s = sid && k = key && v ≠ AttrVal.undefVal
    | TraceItem.startSpan s _ _ attrs =>
      s = sid && attrs.any fun kv => kv.1 = key && kv.2 ≠ AttrVal.undefVal
    | _ => false

/-- Whether any attribute key `key` (on any span) is written anywhere in
the trace, at span start or by setAttribute, with a defined value. -/
def keyWrittenB (trace : List TraceItem) (key : String) : Bool :=
  trace.any fun it =>
    match it with
    | TraceItem.setAttr _ k v => k = key && v ≠ AttrVal.undefVal
    | TraceItem.startSpan _ _ _ attrs =>
      attrs.any fun kv => kv.1 = key && kv.2 ≠ AttrVal.undefVal
    | _ => false

/-- Whether `sub` occurs as a substring of some string-valued attribute
written in the trace (at span start or by setAttribute). -/
def attrValueContainsB (trace : List TraceItem) (sub : String) : Bool :=
  trace.any fun it =>
    match it with
    | TraceItem.setAttr _ _ (AttrVal.str s) => decide (List.IsInfix sub.data s.data)
    | TraceItem.startSpan _ _ _ attrs =>
      attrs.any fun kv =>
        match kv.2 with
        | AttrVal.str s => decide (List.IsInfix sub.data s.data)
        | _ => false
    | _ => false

/-! Event classification helpers used to state properties of whole event
sequences, defined directly from the event discriminants. -/

/-- A generation_tokens event with truthy text: the only events that
contribute to the output-token estimate and the buffered content. -/
def isTokenTextEvent (e : AgentEvent) : Bool :=
  decide (e.type = DUST_EVENT_GENERATION_TOKENS) && truthyS e.text

/-- An agent_action_success event with a truthy action: the only events
that produce a tool child span. -/
def isToolEvent (e : AgentEvent) : Bool :=
  decide (e.type = DUST_EVENT_AGENT_ACTION_SUCCESS) && e.action.isSome

def isMsgSuccessEvent (e : AgentEvent) : Bool :=
  decide (e.type = DUST_EVENT_AGENT_MESSAGE_SUCCESS)

def isErrorEvent (e : AgentEvent) : Bool :=
  decide (e.type = DUST_EVENT_AGENT_ERROR) || decide (e.type = DUST_EVENT_USER_MESSAGE_ERROR)

/-- An event that assigns the finish reason: a message success or one of
the two error events. -/
def isFinishEvent (e : AgentEvent) : Bool :=
  isMsgSuccessEvent e || isErrorEvent e

def finishReasonOf (e : AgentEvent) : String :=
  if isMsgSuccessEvent e then "stop" else "error"

/-- The retrieval documents a single event contributes. -/
def eventDocs (e : AgentEvent) : List String :=
  if e.type = DUST_EVENT_AGENT_ACTION_SUCCESS then
    match e.action with
    | some a => outputDocs a.output
    | none => []
  else []

/-- Sum over token-generation events of (text length) / 4 — the fractional
token-estimate accumulation the wrapper performs. -/
def tokenEstimate : List AgentEvent → ℚ
  | [] => 0
  | e :: rest =>
    (if isTokenTextEvent e then ((e.text.getD "").length : ℚ) / 4 else 0)
      + tokenEstimate rest

/-- Concatenation of the text of all token-generation events. -/
def concatTexts : List AgentEvent → String
  | [] => ""
  | e :: rest => (if isTokenTextEvent e then e.text.getD "" else "") ++ concatTexts rest

/-- All retrieval documents contributed by a sequence. -/
def docsOf : List AgentEvent → List String
  | [] => []
  | e :: rest => eventDocs e ++ docsOf rest

/-- Number of tool child spans a sequence should produce. -/
def countToolEvents (events : List AgentEvent) : Nat :=
  events.countP isToolEvent

/-- The finish reason determined by the last finish-relevant event of the
sequence, if any: "stop" for a message success, "error" for an error
event. -/
def lastFinish (events : List AgentEvent) : Option String :=
  (events.reverse.find? isFinishEvent).map finishReasonOf

/-! State-passing view of the wrapper loop used by the proofs. -/

def stepState (cfg : ResolvedConfig) (pid : Nat) (st : WrapState)
    (e : AgentEvent) : WrapState :=
  (eventSideEffects cfg pid st e).2

def statesFold (cfg : ResolvedConfig) (pid : Nat) (st : WrapState)
    (events : List AgentEvent) : WrapState :=
  events.foldl (stepState cfg pid) st

/-- The part of the wrapper trace produced while events are still being
yielded (everything before the flush or the catch block). -/
def wrapBody (cfg : ResolvedConfig) (pid : Nat) (st : WrapState) :
    List AgentEvent → List TraceItem
  | [] => []
  | e :: rest =>
    (eventSideEffects cfg pid st e).1
      ++ (TraceItem.yieldEvent e :: wrapBody cfg pid (stepState cfg pid st e) rest)

theorem stepState_eq (cfg : ResolvedConfig) (pid : Nat) (st : WrapState)
    (e : AgentEvent) :
    stepState cfg pid st e =
      { outputTokens :=
          st.outputTokens
            + (if isTokenTextEvent e then ((e.text.getD "").length : ℚ) / 4 else 0),
        outputContent :=
          st.outputContent
            ++ (if cfg.captureMessageContent && isTokenTextEvent e then e.text.getD ""
                else ""),
        finishReason :=
          if isMsgSuccessEvent e then some "stop"
          else if isErrorEvent e then some "error"
          else st.finishReason,
        retrievalDocuments := st.retrievalDocuments ++ eventDocs e,
        nextId := st.nextId + (if isToolEvent e then 1 else 0) } := by
  unfold stepState eventSideEffects
  by_cases h1 : e.type = DUST_EVENT_GENERATION_TOKENS
  · have hne : ¬ e.type = DUST_EVENT_AGENT_ACTION_SUCCESS := by
      simp [h1, DUST_EVENT_GENERATION_TOKENS, DUST_EVENT_AGENT_ACTION_SUCCESS]
    cases htext : e.text with
    | none =>
      simp [h1, htext, isTokenTextEvent, truthyS, isToolEvent, isMsgSuccessEvent,
        isErrorEvent, eventDocs, hne, DUST_EVENT_GENERATION_TOKENS,
        DUST_EVENT_AGENT_ACTION_SUCCESS, DUST_EVENT_AGENT_MESSAGE_SUCCESS,
        DUST_EVENT_AGENT_ERROR, DUST_EVENT_USER_MESSAGE_ERROR]
    | some t =>
      by_cases ht : t = "" <;> cases hc : cfg.captureMessageContent <;>
        simp [h1, htext, ht, hc, isTokenTextEvent, truthyS, isToolEvent,
          isMsgSuccessEvent, isErrorEvent, eventDocs, hne,
          DUST_EVENT_GENERATION_TOKENS, DUST_EVENT_AGENT_ACTION_SUCCESS,
          DUST_EVENT_AGENT_MESSAGE_SUCCESS, DUST_EVENT_AGENT_ERROR,
          DUST_EVENT_USER_MESSAGE_ERROR]
  · by_cases h2 : e.type = DUST_EVENT_AGENT_ACTION_SUCCESS
    · cases hact : e.action with
      | none =>
        simp [h1, h2, hact, isTokenTextEvent, isToolEvent, isMsgSuccessEvent,
          isErrorEvent, eventDocs, DUST_EVENT_AGENT_ACTION_SUCCESS,
          DUST_EVENT_GENERATION_TOKENS, DUST_EVENT_AGENT_MESSAGE_SUCCESS,
          DUST_EVENT_AGENT_ERROR, DUST_EVENT_USER_MESSAGE_ERROR]
      | some a =>
        simp [h1, h2, hact, isTokenTextEvent, isToolEvent, isMsgSuccessEvent,
          isErrorEvent, eventDocs, DUST_EVENT_AGENT_ACTION_SUCCESS,
          DUST_EVENT_GENERATION_TOKENS, DUST_EVENT_AGENT_MESSAGE_SUCCESS,
          DUST_EVENT_AGENT_ERROR, DUST_EVENT_USER_MESSAGE_ERROR]
    · by_cases h3 : e.type = DUST_EVENT_AGENT_MESSAGE_SUCCESS
      · simp [h1, h2, h3, isTokenTextEvent, isToolEvent, isMsgSuccessEvent,
          isErrorEvent, eventDocs, DUST_EVENT_AGENT_ACTION_SUCCESS,
          DUST_EVENT_GENERATION_TOKENS, DUST_EVENT_AGENT_MESSAGE_SUCCESS,
          DUST_EVENT_AGENT_ERROR, DUST_EVENT_USER_MESSAGE_ERROR]
      · by_cases h4 : e.type = DUST_EVENT_AGENT_ERROR ∨ e.type = DUST_EVENT_USER_MESSAGE_ERROR
        · have h5 : isErrorEvent e = true := by
            unfold isErrorEvent
            rcases h4 with h | h <;> simp [h]
          simp [h1, h2, h3, h4, h5, isTokenTextEvent, isToolEvent, isMsgSuccessEvent,
            eventDocs]
        · have h5 : isErrorEvent e = false := by
            unfold isErrorEvent
            push_neg at h4
            simp [h4.1, h4.2]
          simp [h1, h2, h3, h4, h5, isTokenTextEvent, isToolEvent, isMsgSuccessEvent,
            eventDocs]

/-! Generic facts about trace fragments that only write attributes,
statuses, or exceptions (no span starts or ends, no yields). -/

def isAttrItem : TraceItem → Bool
  | TraceItem.setAttr _ _ _ => true
  | TraceItem.setStatusError _ _ => true
  | TraceItem.recordException _ _ _ => true
  | _ => false

def attrOnly (l : List TraceItem) : Bool := l.all isAttrItem

theorem attrOnly_append (l₁ l₂ : List TraceItem) :
    attrOnly (l₁ ++ l₂) = (attrOnly l₁ && attrOnly l₂) := by
  simp [attrOnly, List.all_append]

theorem yieldedEvents_append (l₁ l₂ : List TraceItem) :
    yieldedEvents (l₁ ++ l₂) = yieldedEvents l₁ ++ yieldedEvents l₂ := by
  simp [yieldedEvents, List.filterMap_append]

theorem startedIds_append (l₁ l₂ : List TraceItem) :
    startedIds (l₁ ++ l₂) = startedIds l₁ ++ startedIds l₂ := by
  simp [startedIds, List.filterMap_append]

theorem countEnd_append (l₁ l₂ : List TraceItem) (s : Nat) :
    countEnd (l₁ ++ l₂) s = countEnd l₁ s + countEnd l₂ s := by
  simp [countEnd, List.countP_append]

theorem keyWrittenB_append (l₁ l₂ : List TraceItem) (key : String) :
    keyWrittenB (l₁ ++ l₂) key = (keyWrittenB l₁ key || keyWrittenB l₂ key) := by
  simp [keyWrittenB, List.any_append]

theorem hasErrorStatus_append (l₁ l₂ : List TraceItem) (s : Nat) :
    hasErrorStatus (l₁ ++ l₂) s = (hasErrorStatus l₁ s || hasErrorStatus l₂ s) := by
  simp [hasErrorStatus, List.any_append]

theorem yieldedEvents_attrOnly {l : List TraceItem} (h : attrOnly l = true) :
    yieldedEvents l = [] := by
  induction l with
  | nil => rfl
  | cons it rest ih =>
    simp only [attrOnly, List.all_cons, Bool.and_eq_true] at h
    cases it <;> simp_all [yieldedEvents, isAttrItem, attrOnly]

theorem startedIds_attrOnly {l : List TraceItem} (h : attrOnly l = true) :
    startedIds l = [] := by
  induction l with
  | nil => rfl
  | cons it rest ih =>
    simp only [attrOnly, List.all_cons, Bool.and_eq_true] at h
    cases it <;> simp_all [startedIds, isAttrItem, attrOnly]

theorem countEnd_attrOnly {l : List TraceItem} (h : attrOnly l = true) (s : Nat) :
    countEnd l s = 0 := by
  induction l with
  | nil => rfl
  | cons it rest ih =>
    simp only [attrOnly, List.all_cons, Bool.and_eq_true] at h
    cases it <;> simp_all [countEnd, List.countP_cons, isAttrItem, attrOnly]

/-! Child-span nesting discipline: a stack of currently open child spans,
threaded over the trace; `childOkB` checks that the stack is empty at
every yield, i.e. no child span stays open past its triggering event. -/

def childStep (stack : List Nat) : TraceItem → List Nat
  | TraceItem.startSpan sid (some _) _ _ => sid :: stack
  | TraceItem.endSpan sid => stack.erase sid
  | _ => stack

def childRun (stack : List Nat) : List TraceItem → List Nat
  | [] => stack
  | it :: rest => childRun (childStep stack it) rest

def childOkB (stack : List Nat) : List TraceItem → Bool
  | [] => true
  | it :: rest =>
    (match it with
     | TraceItem.yieldEvent _ => stack.isEmpty
     | _ => true)
      && childOkB (childStep stack it) rest

theorem childRun_append (stack : List Nat) (l₁ l₂ : List TraceItem) :
    childRun stack (l₁ ++ l₂) = childRun (childRun stack l₁) l₂ := by
  induction l₁ generalizing stack with
  | nil => rfl
  | cons it rest ih => simp [childRun, ih]

theorem childOkB_append (stack : List Nat) (l₁ l₂ : List TraceItem) :
    childOkB stack (l₁ ++ l₂)
      = (childOkB stack l₁ && childOkB (childRun stack l₁) l₂) := by
  induction l₁ generalizing stack with
  | nil => simp [childOkB, childRun]
  | cons it rest ih => cases it <;> simp [childOkB, childRun, childStep, ih, Bool.and_assoc]

theorem childRun_attrOnly {l : List TraceItem} (h : attrOnly l = true)
    (stack : List Nat) : childRun stack l = stack := by
  induction l generalizing stack with
  | nil => rfl
  | cons it rest ih =>
    simp only [attrOnly, List.all_cons, Bool.and_eq_true] at h
    cases it <;> simp_all [childRun, childStep, isAttrItem, attrOnly]

theorem childOkB_noYield {l : List TraceItem} (h : yieldedEvents l = [])
    (stack : List Nat) : childOkB stack l = true := by
  induction l generalizing stack with
  | nil => rfl
  | cons it rest ih =>
    cases it <;> simp_all [childOkB, childStep, yieldedEvents, List.filterMap_cons]

/-- A count of tool child-span starts in a trace. -/
def isChildStart : TraceItem → Bool
  | TraceItem.startSpan _ (some _) _ _ => true
  | _ => false

def countChildStarts (l : List TraceItem) : Nat := l.countP isChildStart

theorem countChildStarts_append (l₁ l₂ : List TraceItem) :
    countChildStarts (l₁ ++ l₂) = countChildStarts l₁ + countChildStarts l₂ := by
  simp [countChildStarts, List.countP_append]

theorem countChildStarts_attrOnly {l : List TraceItem} (h : attrOnly l = true) :
    countChildStarts l = 0 := by
  induction l with
  | nil => rfl
  | cons it rest ih =>
    simp only [attrOnly, List.all_cons, Bool.and_eq_true] at h
    cases it <;> simp_all [countChildStarts, List.countP_cons, isChildStart, isAttrItem, attrOnly]

/-! The concrete item lists other than a tool segment contain only
attribute-like writes. -/

theorem attrOnly_toolContentItems (cfg : ResolvedConfig) (tid : Nat)
    (a : AgentAction) : attrOnly (toolContentItems cfg tid a) = true := by
  unfold toolContentItems
  repeat' split
  all_goals simp [attrOnly, attrOnly_append, isAttrItem, List.all_append]

theorem attrOnly_msgConfigItems (pid : Nat) (m : Option EventMessage) :
    attrOnly (msgConfigItems pid m) = true := by
  unfold msgConfigItems
  repeat' split
  all_goals simp [attrOnly, attrOnly_append, isAttrItem, List.all_append]

theorem attrOnly_msgSuccessItems (pid : Nat) (e : AgentEvent) :
    attrOnly (msgSuccessItems pid e) = true := by
  unfold msgSuccessItems
  simp only [attrOnly_append, Bool.and_eq_true]
  refine ⟨⟨?_, ?_⟩, attrOnly_msgConfigItems pid e.message⟩
  · split <;> simp [attrOnly, isAttrItem]
  · split <;> simp [attrOnly, isAttrItem]

theorem attrOnly_errorItems (pid : Nat) (e : AgentEvent) :
    attrOnly (errorItems pid e) = true := by
  simp [errorItems, attrOnly, isAttrItem]

theorem attrOnly_flushAttrItems (cfg : ResolvedConfig) (pid : Nat)
    (st : WrapState) : attrOnly (flushAttrItems cfg pid st) = true := by
  unfold flushAttrItems
  repeat' split
  all_goals simp [attrOnly, attrOnly_append, isAttrItem, List.all_append]

/-! Facts about a complete tool child-span segment. -/

theorem toolItems_split (cfg : ResolvedConfig) (pid tid : Nat) (a : AgentAction) :
    toolItems cfg pid tid a
      = [TraceItem.startSpan tid (some pid) GEN_AI_OPERATION_EXECUTE_TOOL
           (toolStartAttrs a)]
        ++ toolContentItems cfg tid a ++ [TraceItem.endSpan tid] := by
  simp [toolItems]

theorem yieldedEvents_toolItems (cfg : ResolvedConfig) (pid tid : Nat)
    (a : AgentAction) : yieldedEvents (toolItems cfg pid tid a) = [] := by
  rw [toolItems_split, yieldedEvents_append, yieldedEvents_append,
    yieldedEvents_attrOnly (attrOnly_toolContentItems cfg tid a)]
  simp [yieldedEvents]

theorem startedIds_toolItems (cfg : ResolvedConfig) (pid tid : Nat)
    (a : AgentAction) : startedIds (toolItems cfg pid tid a) = [tid] := by
  rw [toolItems_split, startedIds_append, startedIds_append,
    startedIds_attrOnly (attrOnly_toolContentItems cfg tid a)]
  simp [startedIds]

theorem countEnd_toolItems (cfg : ResolvedConfig) (pid tid : Nat)
    (a : AgentAction) (s : Nat) :
    countEnd (toolItems cfg pid tid a) s = if tid = s then 1 else 0 := by
  rw [toolItems_split, countEnd_append, countEnd_append,
    countEnd_attrOnly (attrOnly_toolContentItems cfg tid a)]
  simp only [countEnd, List.countP_cons, List.countP_nil]
  split <;> simp_all

theorem countChildStarts_toolItems (cfg : ResolvedConfig) (pid tid : Nat)
    (a : AgentAction) : countChildStarts (toolItems cfg pid tid a) = 1 := by
  rw [toolItems_split, countChildStarts_append, countChildStarts_append,
    countChildStarts_attrOnly (attrOnly_toolContentItems cfg tid a)]
  simp [countChildStarts, List.countP_cons, isChildStart]

theorem childRun_toolItems (cfg : ResolvedConfig) (pid tid : Nat)
    (a : AgentAction) (stack : List Nat) :
    childRun stack (toolItems cfg pid tid a) = stack := by
  rw [toolItems_split, childRun_append, childRun_append]
  simp only [childRun, childStep]
  rw [childRun_attrOnly (attrOnly_toolContentItems cfg tid a)]
  simp [childRun, childStep]

theorem childOkB_toolItems (cfg : ResolvedConfig) (pid tid : Nat)
    (a : AgentAction) (stack : List Nat) :
    childOkB stack (toolItems cfg pid tid a) = true :=
  childOkB_noYield (yieldedEvents_toolItems cfg pid tid a) stack

/-- Shape of one loop iteration's trace segment: a tool event produces
exactly the tool child-span segment; every other event produces only
attribute-like writes on the parent span. -/
theorem seg_shape (cfg : ResolvedConfig) (pid : Nat) (st : WrapState)
    (e : AgentEvent) :
    (∃ a, e.action = some a ∧ isToolEvent e = true ∧
       (eventSideEffects cfg pid st e).1 = toolItems cfg pid st.nextId a) ∨
    (isToolEvent e = false ∧ attrOnly (eventSideEffects cfg pid st e).1 = true) := by
  unfold eventSideEffects
  by_cases h1 : e.type = DUST_EVENT_GENERATION_TOKENS
  · right
    constructor
    · simp [isToolEvent, h1, DUST_EVENT_GENERATION_TOKENS, DUST_EVENT_AGENT_ACTION_SUCCESS]
    · cases htext : e.text with
      | none => simp [h1, htext, attrOnly]
      | some t => by_cases ht : t = "" <;> simp [h1, htext, ht, attrOnly]
  · by_cases h2 : e.type = DUST_EVENT_AGENT_ACTION_SUCCESS
    · cases hact : e.action with
      | some a =>
        left
        refine ⟨a, rfl, by simp [isToolEvent, h2, hact], ?_⟩
        simp [h1, h2, hact, DUST_EVENT_GENERATION_TOKENS,
          DUST_EVENT_AGENT_ACTION_SUCCESS]
      | none =>
        right
        refine ⟨by simp [isToolEvent, hact], ?_⟩
        simp [h1, h2, hact, attrOnly, DUST_EVENT_GENERATION_TOKENS,
          DUST_EVENT_AGENT_ACTION_SUCCESS]
    · have htool : isToolEvent e = false := by simp [isToolEvent, h2]
      by_cases h3 : e.type = DUST_EVENT_AGENT_MESSAGE_SUCCESS
      · right
        refine ⟨htool, ?_⟩
        simp [h1, h2, h3, attrOnly_msgSuccessItems, DUST_EVENT_GENERATION_TOKENS,
          DUST_EVENT_AGENT_ACTION_SUCCESS, DUST_EVENT_AGENT_MESSAGE_SUCCESS]
      · by_cases h4 : e.type = DUST_EVENT_AGENT_ERROR ∨ e.type = DUST_EVENT_USER_MESSAGE_ERROR
        · right
          refine ⟨htool, ?_⟩
          rcases h4 with h4 | h4 <;>
            simp [h1, h2, h3, h4, attrOnly_errorItems,
              DUST_EVENT_GENERATION_TOKENS, DUST_EVENT_AGENT_ACTION_SUCCESS,
              DUST_EVENT_AGENT_MESSAGE_SUCCESS, DUST_EVENT_AGENT_ERROR,
              DUST_EVENT_USER_MESSAGE_ERROR]
        · right
          refine ⟨htool, ?_⟩
          simp [h1, h2, h3, h4, attrOnly]

/-! Per-segment corollaries of seg_shape. -/

theorem yieldedEvents_seg (cfg : ResolvedConfig) (pid : Nat) (st : WrapState)
    (e : AgentEvent) : yieldedEvents (eventSideEffects cfg pid st e).1 = [] := by
  rcases seg_shape cfg pid st e with ⟨a, _, _, hseg⟩ | ⟨_, hattr⟩
  · rw [hseg, yieldedEvents_toolItems]
  · exact yieldedEvents_attrOnly hattr

theorem countEnd_seg (cfg : ResolvedConfig) (pid : Nat) (st : WrapState)
    (e : AgentEvent) (s : Nat) :
    countEnd (eventSideEffects cfg pid st e).1 s
      = if isToolEvent e = true ∧ st.nextId = s then 1 else 0 := by
  rcases seg_shape cfg pid st e with ⟨a, _, htool, hseg⟩ | ⟨htool, hattr⟩
  · rw [hseg, countEnd_toolItems]
    simp [htool]
  · rw [countEnd_attrOnly hattr]
    simp [htool]

theorem startedIds_seg (cfg : ResolvedConfig) (pid : Nat) (st : WrapState)
    (e : AgentEvent) :
    startedIds (eventSideEffects cfg pid st e).1
      = if isToolEvent e = true then [st.nextId] else [] := by
  rcases seg_shape cfg pid st e with ⟨a, _, htool, hseg⟩ | ⟨htool, hattr⟩
  · rw [hseg, startedIds_toolItems]
    simp [htool]
  · rw [startedIds_attrOnly hattr]
    simp [htool]

theorem countChildStarts_seg (cfg : ResolvedConfig) (pid : Nat) (st : WrapState)
    (e : AgentEvent) :
    countChildStarts (eventSideEffects cfg pid st e).1
      = if isToolEvent e = true then 1 else 0 := by
  rcases seg_shape cfg pid st e with ⟨a, _, htool, hseg⟩ | ⟨htool, hattr⟩
  · rw [hseg, countChildStarts_toolItems]
    simp [htool]
  · rw [countChildStarts_attrOnly hattr]
    simp [htool]

theorem childRun_seg (cfg : ResolvedConfig) (pid : Nat) (st : WrapState)
    (e : AgentEvent) (stack : List Nat) :
    childRun stack (eventSideEffects cfg pid st e).1 = stack := by
  rcases seg_shape cfg pid st e with ⟨a, _, _, hseg⟩ | ⟨_, hattr⟩
  · rw [hseg, childRun_toolItems]
  · exact childRun_attrOnly hattr stack

theorem childOkB_seg (cfg : ResolvedConfig) (pid : Nat) (st : WrapState)
    (e : AgentEvent) (stack : List Nat) :
    childOkB stack (eventSideEffects cfg pid st e).1 = true :=
  childOkB_noYield (yieldedEvents_seg cfg pid st e) stack

/-! Which attribute keys each fragment can write. -/

theorem toolContentItems_nocapture {cfg : ResolvedConfig}
    (hcap : cfg.captureMessageContent = false) (tid : Nat) (a : AgentAction) :
    toolContentItems cfg tid a = [] := by
  simp [toolContentItems, hcap]

theorem keyWritten_toolItems (cfg : ResolvedConfig) (pid tid : Nat)
    (a : AgentAction) (key : String)
    (h1 : SEMATTRS_GEN_AI_OPERATION_NAME ≠ key)
    (h2 : SEMATTRS_GEN_AI_PROVIDER_NAME ≠ key)
    (h3 : SEMATTRS_GEN_AI_TOOL_NAME ≠ key)
    (h4 : SEMATTRS_GEN_AI_TOOL_CALL_ID ≠ key)
    (h5 : SEMATTRS_GEN_AI_TOOL_CALL_ARGUMENTS ≠ key)
    (h6 : SEMATTRS_GEN_AI_TOOL_CALL_RESULT ≠ key) :
    keyWrittenB (toolItems cfg pid tid a) key = false := by
  rw [toolItems_split, keyWrittenB_append, keyWrittenB_append]
  have p1 : keyWrittenB [TraceItem.startSpan tid (some pid)
      GEN_AI_OPERATION_EXECUTE_TOOL (toolStartAttrs a)] key = false := by
    simp [keyWrittenB, toolStartAttrs, h1, h2, h3, h4]
  have p2 : keyWrittenB (toolContentItems cfg tid a) key = false := by
    unfold toolContentItems
    repeat' split
    all_goals simp [keyWrittenB, List.any_append, h5, h6]
  have p3 : keyWrittenB [TraceItem.endSpan tid] key = false := by
    simp [keyWrittenB]
  rw [p1, p2, p3]
  rfl

theorem keyWritten_msgSuccessItems (pid : Nat) (e : AgentEvent) (key : String)
    (h1 : SEMATTRS_GEN_AI_AGENT_ID ≠ key)
    (h2 : SEMATTRS_GEN_AI_RESPONSE_ID ≠ key)
    (h3 : SEMATTRS_GEN_AI_AGENT_NAME ≠ key)
    (h4 : SEMATTRS_GEN_AI_AGENT_DESCRIPTION ≠ key)
    (h5 : SEMATTRS_DUST_AGENT_VERSION ≠ key)
    (h6 : SEMATTRS_DUST_AGENT_VERSION_CREATED_AT ≠ key) :
    keyWrittenB (msgSuccessItems pid e) key = false := by
  unfold msgSuccessItems msgConfigItems
  repeat' split
  all_goals simp [keyWrittenB, List.any_append, h1, h2, h3, h4, h5, h6]

theorem keyWritten_errorItems (pid : Nat) (e : AgentEvent) (key : String)
    (h : SEMATTRS_ERROR_TYPE ≠ key) :
    keyWrittenB (errorItems pid e) key = false := by
  simp [errorItems, keyWrittenB, h]

/-! Decomposition of the wrapper trace into the per-event body and the
terminal epilogue, and characterization of the accumulated state. -/

theorem wrapGo_decomp (cfg : ResolvedConfig) (pid : Nat)
    (events : List AgentEvent) : ∀ (st : WrapState) (err : Option JsError),
    wrapGo cfg pid st events err
      = wrapBody cfg pid st events
        ++ (match err with
            | none => flushTrace cfg pid (statesFold cfg pid st events)
            | some er => errorEpilogue pid er) := by
  induction events with
  | nil =>
    intro st err
    cases err <;> simp [wrapGo, wrapBody, statesFold]
  | cons e rest ih =>
    intro st err
    simp only [wrapGo, wrapBody, statesFold, List.foldl_cons]
    rw [ih]
    simp [stepState, statesFold, List.append_assoc]

theorem statesFold_outputTokens (cfg : ResolvedConfig) (pid : Nat)
    (events : List AgentEvent) : ∀ st : WrapState,
    (statesFold cfg pid st events).outputTokens
      = st.outputTokens + tokenEstimate events := by
  induction events with
  | nil => intro st; simp [statesFold, tokenEstimate]
  | cons e rest ih =>
    intro st
    simp only [statesFold, List.foldl_cons] at *
    rw [ih, stepState_eq]
    simp only [tokenEstimate]
    ring

theorem statesFold_outputContent (cfg : ResolvedConfig) (pid : Nat)
    (events : List AgentEvent) : ∀ st : WrapState,
    (statesFold cfg pid st events).outputContent
      = (if cfg.captureMessageContent then st.outputContent ++ concatTexts events
         else st.outputContent) := by
  induction events with
  | nil => intro st; split <;> simp [statesFold, concatTexts]
  | cons e rest ih =>
    intro st
    simp only [statesFold, List.foldl_cons] at *
    rw [ih, stepState_eq]
    by_cases hc : cfg.captureMessageContent <;>
      simp [hc, concatTexts, String.append_assoc]

theorem statesFold_finishReason (cfg : ResolvedConfig) (pid : Nat)
    (events : List AgentEvent) : ∀ st : WrapState,
    (statesFold cfg pid st events).finishReason
      = (match lastFinish events with
         | some r => some r
         | none => st.finishReason) := by
  induction events with
  | nil => intro st; simp [statesFold, lastFinish]
  | cons e rest ih =>
    intro st
    have hcons : lastFinish (e :: rest)
        = (match lastFinish rest with
           | some r => some r
           | none =>
             if isFinishEvent e then some (finishReasonOf e) else none) := by
      unfold lastFinish
      rw [List.reverse_cons, List.find?_append]
      cases hfind : List.find? isFinishEvent rest.reverse with
      | some r => simp [Option.or]
      | none =>
        cases hp : isFinishEvent e <;> simp [Option.or, List.find?, hp]
    simp only [statesFold, List.foldl_cons] at *
    rw [ih, stepState_eq, hcons]
    simp only [isFinishEvent, finishReasonOf]
    cases hlf : lastFinish rest with
    | some r => simp
    | none =>
      cases hm : isMsgSuccessEvent e <;> cases he : isErrorEvent e <;> simp [hm, he]

theorem statesFold_retrievalDocuments (cfg : ResolvedConfig) (pid : Nat)
    (events : List AgentEvent) : ∀ st : WrapState,
    (statesFold cfg pid st events).retrievalDocuments
      = st.retrievalDocuments ++ docsOf events := by
  induction events with
  | nil => intro st; simp [statesFold, docsOf]
  | cons e rest ih =>
    intro st
    simp only [statesFold, List.foldl_cons] at *
    rw [ih, stepState_eq]
    simp [docsOf, List.append_assoc]

theorem statesFold_nextId (cfg : ResolvedConfig) (pid : Nat)
    (events : List AgentEvent) : ∀ st : WrapState,
    (statesFold cfg pid st events).nextId
      = st.nextId + countToolEvents events := by
  induction events with
  | nil => intro st; simp [statesFold, countToolEvents]
  | cons e rest ih =>
    intro st
    simp only [statesFold, List.foldl_cons] at *
    rw [ih, stepState_eq]
    simp only [countToolEvents, List.countP_cons]
    cases ht : isToolEvent e <;> simp [ht] <;> omega

/-! Facts about the per-event body of the wrapper trace. -/

theorem yieldedEvents_wrapBody (cfg : ResolvedConfig) (pid : Nat)
    (events : List AgentEvent) : ∀ st : WrapState,
    yieldedEvents (wrapBody cfg pid st events) = events := by
  induction events with
  | nil => intro st; simp [wrapBody, yieldedEvents]
  | cons e rest ih =>
    intro st
    simp only [wrapBody]
    rw [yieldedEvents_append, yieldedEvents_seg]
    simp [yieldedEvents, List.filterMap_cons]
    have h := ih (stepState cfg pid st e)
    simp [yieldedEvents] at h
    exact h

theorem countEnd_wrapBody (cfg : ResolvedConfig) (pid : Nat)
    (events : List AgentEvent) : ∀ st : WrapState, pid < st.nextId →
    countEnd (wrapBody cfg pid st events) pid = 0 := by
  induction events with
  | nil => intro st _; simp [wrapBody, countEnd]
  | cons e rest ih =>
    intro st hlt
    simp only [wrapBody]
    rw [countEnd_append, countEnd_seg]
    have hne : ¬(isToolEvent e = true ∧ st.nextId = pid) := by
      rintro ⟨_, h⟩
      omega
    have hst : pid < (stepState cfg pid st e).nextId := by
      rw [stepState_eq]
      simp only []
      split <;> omega
    have hrest := ih (stepState cfg pid st e) hst
    simp only [if_neg hne, countEnd, List.countP_cons]
    simp only [countEnd] at hrest
    simp [hrest]

theorem startedEnded_wrapBody (cfg : ResolvedConfig) (pid : Nat)
    (events : List AgentEvent) : ∀ st : WrapState,
    ∀ s ∈ startedIds (wrapBody cfg pid st events),
      1 ≤ countEnd (wrapBody cfg pid st events) s := by
  induction events with
  | nil => intro st s hs; simp [wrapBody, startedIds] at hs
  | cons e rest ih =>
    intro st s hs
    simp only [wrapBody] at hs ⊢
    rw [startedIds_append] at hs
    rw [countEnd_append]
    have hyield : startedIds (TraceItem.yieldEvent e :: wrapBody cfg pid (stepState cfg pid st e) rest)
        = startedIds (wrapBody cfg pid (stepState cfg pid st e) rest) := by
      simp [startedIds, List.filterMap_cons]
    have hyieldc : countEnd (TraceItem.yieldEvent e :: wrapBody cfg pid (stepState cfg pid st e) rest) s
        = countEnd (wrapBody cfg pid (stepState cfg pid st e) rest) s := by
      simp [countEnd, List.countP_cons]
    rcases List.mem_append.mp hs with hseg | hrest
    · rw [startedIds_seg] at hseg
      by_cases ht : isToolEvent e = true
      · simp only [ht, if_pos] at hseg
        simp only [List.mem_singleton] at hseg
        rw [countEnd_seg]
        simp [ht, hseg]
      · simp [ht] at hseg
    · rw [hyield] at hrest
      rw [hyieldc]
      have := ih (stepState cfg pid st e) s hrest
      omega

theorem countChildStarts_wrapBody (cfg : ResolvedConfig) (pid : Nat)
    (events : List AgentEvent) : ∀ st : WrapState,
    countChildStarts (wrapBody cfg pid st events) = countToolEvents events := by
  induction events with
  | nil => intro st; simp [wrapBody, countChildStarts, countToolEvents]
  | cons e rest ih =>
    intro st
    simp only [wrapBody]
    rw [countChildStarts_append, countChildStarts_seg]
    have h := ih (stepState cfg pid st e)
    simp only [countChildStarts, List.countP_cons, isChildStart] at h ⊢
    simp only [countToolEvents, List.countP_cons] at *
    cases ht : isToolEvent e <;> simp [ht, h] <;> omega

theorem childRun_wrapBody (cfg : ResolvedConfig) (pid : Nat)
    (events : List AgentEvent) : ∀ st : WrapState,
    childRun [] (wrapBody cfg pid st events) = [] := by
  induction events with
  | nil => intro st; simp [wrapBody, childRun]
  | cons e rest ih =>
    intro st
    simp only [wrapBody]
    rw [childRun_append, childRun_seg]
    simp only [childRun, childStep]
    exact ih (stepState cfg pid st e)

theorem childOkB_wrapBody (cfg : ResolvedConfig) (pid : Nat)
    (events : List AgentEvent) : ∀ st : WrapState,
    childOkB [] (wrapBody cfg pid st events) = true := by
  induction events with
  | nil => intro st; simp [wrapBody, childOkB]
  | cons e rest ih =>
    intro st
    simp only [wrapBody]
    rw [childOkB_append, childOkB_seg, childRun_seg]
    simp only [childOkB, childStep, List.isEmpty_nil, Bool.true_and, Bool.and_self]
    exact ih (stepState cfg pid st e)

/-- The exact item list of one loop-body segment, by case on the event. -/
theorem seg_items_eq (cfg : ResolvedConfig) (pid : Nat) (st : WrapState)
    (e : AgentEvent) :
    (eventSideEffects cfg pid st e).1 = [] ∨
    (∃ a, e.action = some a ∧
       (eventSideEffects cfg pid st e).1 = toolItems cfg pid st.nextId a) ∨
    (eventSideEffects cfg pid st e).1 = msgSuccessItems pid e ∨
    (eventSideEffects cfg pid st e).1 = errorItems pid e := by
  unfold eventSideEffects
  by_cases h1 : e.type = DUST_EVENT_GENERATION_TOKENS
  · left
    cases htext : e.text with
    | none => simp [h1, htext]
    | some t => by_cases ht : t = "" <;> simp [h1, htext, ht]
  · by_cases h2 : e.type = DUST_EVENT_AGENT_ACTION_SUCCESS
    · cases hact : e.action with
      | some a =>
        right; left
        refine ⟨a, rfl, ?_⟩
        simp [h1, h2, hact, DUST_EVENT_GENERATION_TOKENS,
          DUST_EVENT_AGENT_ACTION_SUCCESS]
      | none =>
        left
        simp [h1, h2, hact, DUST_EVENT_GENERATION_TOKENS,
          DUST_EVENT_AGENT_ACTION_SUCCESS]
    · by_cases h3 : e.type = DUST_EVENT_AGENT_MESSAGE_SUCCESS
      · right; right; left
        simp [h1, h2, h3, DUST_EVENT_GENERATION_TOKENS,
          DUST_EVENT_AGENT_ACTION_SUCCESS, DUST_EVENT_AGENT_MESSAGE_SUCCESS]
      · by_cases h4 : e.type = DUST_EVENT_AGENT_ERROR ∨ e.type = DUST_EVENT_USER_MESSAGE_ERROR
        · right; right; right
          rcases h4 with h4 | h4 <;>
            simp [h1, h2, h3, h4, DUST_EVENT_GENERATION_TOKENS,
              DUST_EVENT_AGENT_ACTION_SUCCESS, DUST_EVENT_AGENT_MESSAGE_SUCCESS,
              DUST_EVENT_AGENT_ERROR, DUST_EVENT_USER_MESSAGE_ERROR]
        · left
          simp [h1, h2, h3, h4]

/-- The attribute keys a loop-body segment can write: everything else is
never written before the flush. -/
theorem keyWritten_seg (cfg : ResolvedConfig) (pid : Nat) (st : WrapState)
    (e : AgentEvent) (key : String)
    (k1 : SEMATTRS_GEN_AI_OPERATION_NAME ≠ key)
    (k2 : SEMATTRS_GEN_AI_PROVIDER_NAME ≠ key)
    (k3 : SEMATTRS_GEN_AI_TOOL_NAME ≠ key)
    (k4 : SEMATTRS_GEN_AI_TOOL_CALL_ID ≠ key)
    (k5 : SEMATTRS_GEN_AI_TOOL_CALL_ARGUMENTS ≠ key)
    (k6 : SEMATTRS_GEN_AI_TOOL_CALL_RESULT ≠ key)
    (k7 : SEMATTRS_GEN_AI_AGENT_ID ≠ key)
    (k8 : SEMATTRS_GEN_AI_RESPONSE_ID ≠ key)
    (k9 : SEMATTRS_GEN_AI_AGENT_NAME ≠ key)
    (k10 : SEMATTRS_GEN_AI_AGENT_DESCRIPTION ≠ key)
    (k11 : SEMATTRS_DUST_AGENT_VERSION ≠ key)
    (k12 : SEMATTRS_DUST_AGENT_VERSION_CREATED_AT ≠ key)
    (k13 : SEMATTRS_ERROR_TYPE ≠ key) :
    keyWrittenB (eventSideEffects cfg pid st e).1 key = false := by
  rcases seg_items_eq cfg pid st e with h | ⟨a, _, h⟩ | h | h
  · rw [h]; rfl
  · rw [h]
    exact keyWritten_toolItems cfg pid st.nextId a key k1 k2 k3 k4 k5 k6
  · rw [h]
    exact keyWritten_msgSuccessItems pid e key k7 k8 k9 k10 k11 k12
  · rw [h]
    exact keyWritten_errorItems pid e key k13

/-- With content capture disabled, a loop-body segment never writes the
tool-arguments or tool-result attribute keys. -/
theorem keyWritten_seg_nocapture (cfg : ResolvedConfig) (pid : Nat)
    (st : WrapState) (e : AgentEvent) (key : String)
    (hcap : cfg.captureMessageContent = false)
    (hk : key = SEMATTRS_GEN_AI_TOOL_CALL_ARGUMENTS
          ∨ key = SEMATTRS_GEN_AI_TOOL_CALL_RESULT) :
    keyWrittenB (eventSideEffects cfg pid st e).1 key = false := by
  rcases seg_items_eq cfg pid st e with h | ⟨a, _, h⟩ | h | h
  · rw [h]; rfl
  · rw [h, toolItems_split, toolContentItems_nocapture hcap,
      keyWrittenB_append, keyWrittenB_append]
    rcases hk with hk | hk <;>
      simp [hk, keyWrittenB, toolStartAttrs,
        SEMATTRS_GEN_AI_OPERATION_NAME, SEMATTRS_GEN_AI_PROVIDER_NAME,
        SEMATTRS_GEN_AI_TOOL_NAME, SEMATTRS_GEN_AI_TOOL_CALL_ID,
        SEMATTRS_GEN_AI_TOOL_CALL_ARGUMENTS, SEMATTRS_GEN_AI_TOOL_CALL_RESULT]
  · rw [h]
    refine keyWritten_msgSuccessItems pid e key ?_ ?_ ?_ ?_ ?_ ?_ <;>
      rcases hk with hk | hk <;> subst hk <;> decide
  · rw [h]
    refine keyWritten_errorItems pid e key ?_
    rcases hk with hk | hk <;> subst hk <;> decide

theorem keyWrittenB_cons_yield (e : AgentEvent) (l : List TraceItem)
    (key : String) :
    keyWrittenB (TraceItem.yieldEvent e :: l) key = keyWrittenB l key := by
  simp [keyWrittenB]

theorem keyWritten_wrapBody (cfg : ResolvedConfig) (pid : Nat)
    (events : List AgentEvent) (key : String)
    (k1 : SEMATTRS_GEN_AI_OPERATION_NAME ≠ key)
    (k2 : SEMATTRS_GEN_AI_PROVIDER_NAME ≠ key)
    (k3 : SEMATTRS_GEN_AI_TOOL_NAME ≠ key)
    (k4 : SEMATTRS_GEN_AI_TOOL_CALL_ID ≠ key)
    (k5 : SEMATTRS_GEN_AI_TOOL_CALL_ARGUMENTS ≠ key)
    (k6 : SEMATTRS_GEN_AI_TOOL_CALL_RESULT ≠ key)
    (k7 : SEMATTRS_GEN_AI_AGENT_ID ≠ key)
    (k8 : SEMATTRS_GEN_AI_RESPONSE_ID ≠ key)
    (k9 : SEMATTRS_GEN_AI_AGENT_NAME ≠ key)
    (k10 : SEMATTRS_GEN_AI_AGENT_DESCRIPTION ≠ key)
    (k11 : SEMATTRS_DUST_AGENT_VERSION ≠ key)
    (k12 : SEMATTRS_DUST_AGENT_VERSION_CREATED_AT ≠ key)
    (k13 : SEMATTRS_ERROR_TYPE ≠ key) :
    ∀ st : WrapState, keyWrittenB (wrapBody cfg pid st events) key = false := by
  induction events with
  | nil => intro st; simp [wrapBody, keyWrittenB]
  | cons e rest ih =>
    intro st
    simp only [wrapBody]
    rw [keyWrittenB_append,
      keyWritten_seg cfg pid st e key k1 k2 k3 k4 k5 k6 k7 k8 k9 k10 k11 k12 k13,
      keyWrittenB_cons_yield, ih (stepState cfg pid st e)]
    rfl

theorem keyWritten_wrapBody_nocapture (cfg : ResolvedConfig) (pid : Nat)
    (events : List AgentEvent) (key : String)
    (hcap : cfg.captureMessageContent = false)
    (hk : key = SEMATTRS_GEN_AI_TOOL_CALL_ARGUMENTS
          ∨ key = SEMATTRS_GEN_AI_TOOL_CALL_RESULT) :
    ∀ st : WrapState, keyWrittenB (wrapBody cfg pid st events) key = false := by
  induction events with
  | nil => intro st; simp [wrapBody, keyWrittenB]
  | cons e rest ih =>
    intro st
    simp only [wrapBody]
    rw [keyWrittenB_append, keyWritten_seg_nocapture cfg pid st e key hcap hk,
      keyWrittenB_cons_yield, ih (stepState cfg pid st e)]
    rfl

/-! Facts about the flush and the error epilogue. -/

theorem countEnd_flushTrace (cfg : ResolvedConfig) (pid : Nat) (st : WrapState)
    (s : Nat) : countEnd (flushTrace cfg pid st) s = if pid = s then 1 else 0 := by
  unfold flushTrace
  rw [countEnd_append, countEnd_attrOnly (attrOnly_flushAttrItems cfg pid st)]
  simp only [countEnd, List.countP_cons, List.countP_nil]
  split <;> simp_all

theorem countEnd_errorEpilogue (pid : Nat) (er : JsError) (s : Nat) :
    countEnd (errorEpilogue pid er) s = if pid = s then 1 else 0 := by
  simp only [errorEpilogue, countEnd, List.countP_cons, List.countP_nil]
  split <;> simp_all

theorem startedIds_flushTrace (cfg : ResolvedConfig) (pid : Nat)
    (st : WrapState) : startedIds (flushTrace cfg pid st) = [] := by
  unfold flushTrace
  rw [startedIds_append, startedIds_attrOnly (attrOnly_flushAttrItems cfg pid st)]
  simp [startedIds]

theorem startedIds_errorEpilogue (pid : Nat) (er : JsError) :
    startedIds (errorEpilogue pid er) = [] := by
  simp [errorEpilogue, startedIds]

theorem yieldedEvents_flushTrace (cfg : ResolvedConfig) (pid : Nat)
    (st : WrapState) : yieldedEvents (flushTrace cfg pid st) = [] := by
  unfold flushTrace
  rw [yieldedEvents_append, yieldedEvents_attrOnly (attrOnly_flushAttrItems cfg pid st)]
  simp [yieldedEvents]

theorem yieldedEvents_errorEpilogue (pid : Nat) (er : JsError) :
    yieldedEvents (errorEpilogue pid er) = [] := by
  simp [errorEpilogue, yieldedEvents]

theorem keyWrittenB_of_mem_setAttr {l : List TraceItem} {s : Nat} {k : String}
    {v : AttrVal} (hm : TraceItem.setAttr s k v ∈ l) (hv : v ≠ AttrVal.undefVal) :
    keyWrittenB l k = true := by
  simp only [keyWrittenB, List.any_eq_true]
  exact ⟨TraceItem.setAttr s k v, hm, by simp [hv]⟩

/-- Membership of the finish-reason write in the flush. -/
theorem flush_finish_mem (cfg : ResolvedConfig) (pid : Nat) (st : WrapState)
    (r : String) :
    (TraceItem.setAttr pid SEMATTRS_GEN_AI_RESPONSE_FINISH_REASONS
        (.strList [r]) ∈ flushAttrItems cfg pid st)
      ↔ (st.finishReason = some r ∧ ¬ r = "") := by
  unfold flushAttrItems
  cases hf : st.finishReason with
  | none =>
    repeat' split
    all_goals
      simp_all [List.mem_append, SEMATTRS_GEN_AI_OUTPUT_MESSAGES,
        SEMATTRS_GEN_AI_USAGE_OUTPUT_TOKENS, SEMATTRS_GEN_AI_RESPONSE_FINISH_REASONS,
        SEMATTRS_GEN_AI_RETRIEVAL_DOCUMENTS]
  | some r' =>
    by_cases hr : r' = "" <;>
      [skip; skip] <;>
      repeat' split
    all_goals
      simp_all [List.mem_append, SEMATTRS_GEN_AI_OUTPUT_MESSAGES,
        SEMATTRS_GEN_AI_USAGE_OUTPUT_TOKENS, SEMATTRS_GEN_AI_RESPONSE_FINISH_REASONS,
        SEMATTRS_GEN_AI_RETRIEVAL_DOCUMENTS]
    all_goals
      constructor
      · rintro (h | h) <;> simp_all
      · rintro ⟨h, _⟩
        simp_all

/-- Membership of the output-token usage write in the flush. -/
theorem flush_usage_mem (cfg : ResolvedConfig) (pid : Nat) (st : WrapState)
    (q : ℚ) :
    (TraceItem.setAttr pid SEMATTRS_GEN_AI_USAGE_OUTPUT_TOKENS (.num q)
        ∈ flushAttrItems cfg pid st)
      ↔ (0 < st.outputTokens ∧ q = st.outputTokens) := by
  unfold flushAttrItems
  repeat' split
  all_goals
    simp_all [List.mem_append, SEMATTRS_GEN_AI_OUTPUT_MESSAGES,
      SEMATTRS_GEN_AI_USAGE_OUTPUT_TOKENS, SEMATTRS_GEN_AI_RESPONSE_FINISH_REASONS,
      SEMATTRS_GEN_AI_RETRIEVAL_DOCUMENTS]

/-- Membership of the buffered output-content write in the flush. -/
theorem flush_output_mem (cfg : ResolvedConfig) (pid : Nat) (st : WrapState)
    (s : String) :
    (TraceItem.setAttr pid SEMATTRS_GEN_AI_OUTPUT_MESSAGES (.str s)
        ∈ flushAttrItems cfg pid st)
      ↔ ((cfg.captureMessageContent = true ∧ st.outputContent ≠ "")
          ∧ s = renderOutputMessages st.outputContent) := by
  unfold flushAttrItems
  repeat' split
  all_goals
    simp_all [List.mem_append, SEMATTRS_GEN_AI_OUTPUT_MESSAGES,
      SEMATTRS_GEN_AI_USAGE_OUTPUT_TOKENS, SEMATTRS_GEN_AI_RESPONSE_FINISH_REASONS,
      SEMATTRS_GEN_AI_RETRIEVAL_DOCUMENTS]

/-- Membership of the batched retrieval-documents write in the flush. -/
theorem flush_retrieval_mem (cfg : ResolvedConfig) (pid : Nat) (st : WrapState)
    (s : String) :
    (TraceItem.setAttr pid SEMATTRS_GEN_AI_RETRIEVAL_DOCUMENTS (.str s)
        ∈ flushAttrItems cfg pid st)
      ↔ (st.retrievalDocuments ≠ []
          ∧ s = renderRetrievalDocuments st.retrievalDocuments) := by
  unfold flushAttrItems
  repeat' split
  all_goals
    simp_all [List.mem_append, SEMATTRS_GEN_AI_OUTPUT_MESSAGES,
      SEMATTRS_GEN_AI_USAGE_OUTPUT_TOKENS, SEMATTRS_GEN_AI_RESPONSE_FINISH_REASONS,
      SEMATTRS_GEN_AI_RETRIEVAL_DOCUMENTS]

/-- The flush writes no attribute key other than the four final keys. -/
theorem flush_key_false (cfg : ResolvedConfig) (pid : Nat) (st : WrapState)
    (key : String)
    (h1 : SEMATTRS_GEN_AI_OUTPUT_MESSAGES ≠ key)
    (h2 : SEMATTRS_GEN_AI_USAGE_OUTPUT_TOKENS ≠ key)
    (h3 : SEMATTRS_GEN_AI_RESPONSE_FINISH_REASONS ≠ key)
    (h4 : SEMATTRS_GEN_AI_RETRIEVAL_DOCUMENTS ≠ key) :
    keyWrittenB (flushAttrItems cfg pid st) key = false := by
  unfold flushAttrItems
  repeat' split
  all_goals simp_all [keyWrittenB, List.any_append]

/-- With content capture off, the flush never writes the output-messages
key. -/
theorem flush_output_nocapture (cfg : ResolvedConfig) (pid : Nat)
    (st : WrapState) (hcap : cfg.captureMessageContent = false) :
    keyWrittenB (flushAttrItems cfg pid st)
      SEMATTRS_GEN_AI_OUTPUT_MESSAGES = false := by
  unfold flushAttrItems
  repeat' split
  all_goals
    simp_all [keyWrittenB, List.any_append, SEMATTRS_GEN_AI_OUTPUT_MESSAGES,
      SEMATTRS_GEN_AI_USAGE_OUTPUT_TOKENS, SEMATTRS_GEN_AI_RESPONSE_FINISH_REASONS,
      SEMATTRS_GEN_AI_RETRIEVAL_DOCUMENTS]

/-- If no finish reason was recorded, the flush does not write the
finish-reasons key. -/
theorem flush_finish_none (cfg : ResolvedConfig) (pid : Nat) (st : WrapState)
    (hf : st.finishReason = none) :
    keyWrittenB (flushAttrItems cfg pid st)
      SEMATTRS_GEN_AI_RESPONSE_FINISH_REASONS = false := by
  unfold flushAttrItems
  cases hr : st.finishReason with
  | some r => rw [hf] at hr; cases hr
  | none =>
    repeat' split
    all_goals
      simp_all [keyWrittenB, List.any_append, SEMATTRS_GEN_AI_OUTPUT_MESSAGES,
        SEMATTRS_GEN_AI_USAGE_OUTPUT_TOKENS, SEMATTRS_GEN_AI_RESPONSE_FINISH_REASONS,
        SEMATTRS_GEN_AI_RETRIEVAL_DOCUMENTS]

/-- If the accumulated token count is not positive, the flush does not
write the usage key. -/
theorem flush_usage_none (cfg : ResolvedConfig) (pid : Nat) (st : WrapState)
    (h : ¬ 0 < st.outputTokens) :
    keyWrittenB (flushAttrItems cfg pid st)
      SEMATTRS_GEN_AI_USAGE_OUTPUT_TOKENS = false := by
  unfold flushAttrItems
  repeat' split
  all_goals
    simp_all [keyWrittenB, List.any_append, SEMATTRS_GEN_AI_OUTPUT_MESSAGES,
      SEMATTRS_GEN_AI_USAGE_OUTPUT_TOKENS, SEMATTRS_GEN_AI_RESPONSE_FINISH_REASONS,
      SEMATTRS_GEN_AI_RETRIEVAL_DOCUMENTS]

/-- A recorded finish reason is always "stop" or "error". -/
theorem lastFinish_values (events : List AgentEvent) (r : String)
    (h : lastFinish events = some r) : r = "stop" ∨ r = "error" := by
  unfold lastFinish at h
  cases hfind : List.find? isFinishEvent events.reverse with
  | none => rw [hfind] at h; cases h
  | some e' =>
    rw [hfind] at h
    have h' : finishReasonOf e' = r := by simpa using h
    cases h'
    unfold finishReasonOf
    split
    · left; rfl
    · right; rfl

theorem wrapGo_decomp_none (cfg : ResolvedConfig) (pid : Nat)
    (events : List AgentEvent) (st : WrapState) :
    wrapGo cfg pid st events none
      = wrapBody cfg pid st events
        ++ flushTrace cfg pid (statesFold cfg pid st events) := by
  rw [wrapGo_decomp]

theorem wrapGo_decomp_some (cfg : ResolvedConfig) (pid : Nat)
    (events : List AgentEvent) (st : WrapState) (er : JsError) :
    wrapGo cfg pid st events (some er)
      = wrapBody cfg pid st events ++ errorEpilogue pid er := by
  rw [wrapGo_decomp]

/-- The wrapper yields exactly the underlying events, whether the
underlying stream ends normally or throws. -/
theorem yieldedEvents_wrapEventStream (cfg : ResolvedConfig) (pid : Nat)
    (events : List AgentEvent) (err : Option JsError) :
    yieldedEvents (wrapEventStream cfg pid events err) = events := by
  unfold wrapEventStream
  cases err with
  | none =>
    rw [wrapGo_decomp_none, yieldedEvents_append, yieldedEvents_wrapBody,
      yieldedEvents_flushTrace]
    simp
  | some er =>
    rw [wrapGo_decomp_some, yieldedEvents_append, yieldedEvents_wrapBody,
      yieldedEvents_errorEpilogue]
    simp

/-- The accumulated final state of a full pass over the events. -/
def finalState (cfg : ResolvedConfig) (pid : Nat)
    (events : List AgentEvent) : WrapState :=
  statesFold cfg pid (initWrapState (pid + 1)) events

theorem finalState_outputTokens (cfg : ResolvedConfig) (pid : Nat)
    (events : List AgentEvent) :
    (finalState cfg pid events).outputTokens = tokenEstimate events := by
  unfold finalState
  rw [statesFold_outputTokens]
  simp [initWrapState]

theorem finalState_outputContent (cfg : ResolvedConfig) (pid : Nat)
    (events : List AgentEvent) :
    (finalState cfg pid events).outputContent
      = (if cfg.captureMessageContent then concatTexts events else "") := by
  unfold finalState
  rw [statesFold_outputContent]
  cases hc : cfg.captureMessageContent <;> simp [initWrapState, hc]

theorem finalState_finishReason (cfg : ResolvedConfig) (pid : Nat)
    (events : List AgentEvent) :
    (finalState cfg pid events).finishReason = lastFinish events := by
  unfold finalState
  rw [statesFold_finishReason]
  cases h : lastFinish events <;> simp [initWrapState]

theorem finalState_retrievalDocuments (cfg : ResolvedConfig) (pid : Nat)
    (events : List AgentEvent) :
    (finalState cfg pid events).retrievalDocuments = docsOf events := by
  unfold finalState
  rw [statesFold_retrievalDocuments]
  simp [initWrapState]

/-! Concrete sample inputs used by the witness theorems. -/

def sampleTokenEvent : AgentEvent :=
  { type := "generation_tokens", text := some "Hello wor", action := none,
    configurationId := none, messageId := none, message := none, error := none }

def sampleResourceItem : OutputItem :=
  { type := "resource", documents := none,
    serialized := "\x7b\"text\":\"SECRET-PAYLOAD\"\x7d" }

def sampleAction : AgentAction :=
  { sId := some "act-1", functionCallName := some "search",
    functionCallId := none, params := some "\x7b\"q\":\"x\"\x7d",
    output := some (ActionOutput.arr [sampleResourceItem]) }

def sampleToolEvent : AgentEvent :=
  { type := "agent_action_success", text := none, action := some sampleAction,
    configurationId := none, messageId := none, message := none, error := none }

def sampleActionlessEvent : AgentEvent :=
  { type := "agent_action_success", text := none, action := none,
    configurationId := none, messageId := none, message := none, error := none }

def sampleMsgEvent : AgentEvent :=
  { type := "agent_message_success", text := none, action := none,
    configurationId := some "agent-1", messageId := some "msg-1",
    message := none, error := none }

def sampleErrorEvent : AgentEvent :=
  { type := "agent_error", text := none, action := none,
    configurationId := none, messageId := none, message := none,
    error := some { code := some "TIMEOUT", message := some "timed out" } }

def rawCapOn : RawConfig :=
  { enabled := some true, captureMessageContent := some true,
    captureSystemInstructions := some false }

def rawCapOff : RawConfig :=
  { enabled := some true, captureMessageContent := some false,
    captureSystemInstructions := some false }

def rawDisabled : RawConfig :=
  { enabled := some false, captureMessageContent := some true,
    captureSystemInstructions := some false }

def sampleStreamValue : StreamValue :=
  { events := [sampleTokenEvent, sampleToolEvent, sampleMsgEvent],
    streamError := none }

def sampleStreamResult : DustResult StreamValue :=
  { isErrDefined := true, isErrValue := false, error := none,
    value := some sampleStreamValue }

/-- C1: for every event sequence consumed through the stream wrapper that
the patched streamAgentAnswerEvents installs (instrumentation enabled,
result not error-flagged), the sequence of events yielded to the consumer
is element-for-element equal to the underlying sequence — same length,
same order, every value unchanged, none dropped or added — and the settled
Result object handed back to the caller is unchanged. -/
theorem C1_wrapper_preserves_event_sequence
    (cfg : ResolvedConfig) (pid : Nat) (events : List AgentEvent)
    (err : Option JsError) (raw : RawConfig) (args : StreamArgs)
    (r : DustResult StreamValue) (v : StreamValue)
    (hen : (resolveConfig raw).enabled = true)
    (hflag : r.errFlagged = false) (hval : r.value = some v) :
    yieldedEvents (wrapEventStream cfg pid events err) = events
    ∧ (patchedStreamAgentAnswerEvents raw args (.resolve r)).2
        = CallOutcome.resolve r := by
  refine ⟨yieldedEvents_wrapEventStream cfg pid events err, ?_⟩
  unfold patchedStreamAgentAnswerEvents
  simp only [hen, if_true, hflag, hval, Bool.false_eq_true, if_false]
  rw [yieldedEvents_wrapEventStream]
  cases r with
  | mk d iv re val =>
    cases v with
    | mk evs serr =>
      simp only [DustResult.mk.injEq] at hval ⊢
      simp [hval]

theorem C1_witness :
    yieldedEvents (wrapEventStream (resolveConfig rawCapOn) 0
        [sampleTokenEvent, sampleToolEvent] none)
      = [sampleTokenEvent, sampleToolEvent]
    ∧ (patchedStreamAgentAnswerEvents rawCapOn { conversationSId := "c-1" }
        (.resolve sampleStreamResult)).2
      = CallOutcome.resolve sampleStreamResult :=
  C1_wrapper_preserves_event_sequence (resolveConfig rawCapOn) 0
    [sampleTokenEvent, sampleToolEvent] none rawCapOn
    { conversationSId := "c-1" } sampleStreamResult sampleStreamValue
    (by decide) (by decide) rfl

/-- C2: with the instrumentation config disabled, both patched methods are
pure passthroughs — the emitted operation trace is empty (no span, no
attribute) and the settled outcome returned to the caller is exactly the
unwrapped original outcome. -/
theorem C2_disabled_passthrough (raw : RawConfig)
    (hdis : raw.enabled = some false)
    (args : CCArgs) (o : CallOutcome (DustResult CCValue))
    (sargs : StreamArgs) (so : CallOutcome (DustResult StreamValue)) :
    patchedCreateConversation raw args o = ([], o)
    ∧ patchedStreamAgentAnswerEvents raw sargs so = ([], so) := by
  have hen : (resolveConfig raw).enabled = false := by
    simp [resolveConfig, hdis]
  constructor
  · unfold patchedCreateConversation
    simp [hen]
  · unfold patchedStreamAgentAnswerEvents
    simp [hen]

theorem C2_witness :
    patchedCreateConversation rawDisabled
        { mentionConfigId := some "agent-1", email := none, content := some "hi" }
        (.reject { name := "Error", message := "boom" })
      = ([], .reject { name := "Error", message := "boom" })
    ∧ patchedStreamAgentAnswerEvents rawDisabled { conversationSId := "c-1" }
        (.resolve sampleStreamResult)
      = ([], .resolve sampleStreamResult) :=
  C2_disabled_passthrough rawDisabled rfl
    { mentionConfigId := some "agent-1", email := none, content := some "hi" }
    (.reject { name := "Error", message := "boom" })
    { conversationSId := "c-1" } (.resolve sampleStreamResult)

/-- C9: an agent_action_success event whose action field is absent or falsy
produces no child span and no tool attributes — the loop iteration emits no
trace item and leaves the running state unchanged — yet the event is still
yielded to the consumer in its position in the sequence. -/
theorem C9_actionless_event_noop (cfg : ResolvedConfig) (pid : Nat)
    (st : WrapState) (e : AgentEvent) (rest : List AgentEvent)
    (err : Option JsError)
    (htype : e.type = DUST_EVENT_AGENT_ACTION_SUCCESS)
    (hact : e.action = none) :
    eventSideEffects cfg pid st e = ([], st)
    ∧ wrapGo cfg pid st (e :: rest) err
        = TraceItem.yieldEvent e :: wrapGo cfg pid st rest err := by
  have h1 : ¬ e.type = DUST_EVENT_GENERATION_TOKENS := by
    rw [htype]; decide
  have hseg : eventSideEffects cfg pid st e = ([], st) := by
    unfold eventSideEffects
    simp [h1, htype, hact, DUST_EVENT_GENERATION_TOKENS,
      DUST_EVENT_AGENT_ACTION_SUCCESS]
  refine ⟨hseg, ?_⟩
  simp [wrapGo, hseg]

theorem C9_witness :
    eventSideEffects (resolveConfig rawCapOn) 0 (initWrapState 1)
        sampleActionlessEvent = ([], initWrapState 1)
    ∧ wrapGo (resolveConfig rawCapOn) 0 (initWrapState 1)
        (sampleActionlessEvent :: [sampleMsgEvent]) none
      = TraceItem.yieldEvent sampleActionlessEvent
          :: wrapGo (resolveConfig rawCapOn) 0 (initWrapState 1)
              [sampleMsgEvent] none :=
  C9_actionless_event_noop (resolveConfig rawCapOn) 0 (initWrapState 1)
    sampleActionlessEvent [sampleMsgEvent] none rfl rfl

/-- The normally-terminated wrapper trace: body, final attributes computed
from the accumulated final state, parent-span end. -/
theorem wrapEventStream_decomp_none (cfg : ResolvedConfig) (pid : Nat)
    (events : List AgentEvent) :
    wrapEventStream cfg pid events none
      = wrapBody cfg pid (initWrapState (pid + 1)) events
        ++ flushTrace cfg pid (finalState cfg pid events) := by
  unfold wrapEventStream finalState
  exact wrapGo_decomp_none cfg pid events (initWrapState (pid + 1))

theorem wrapEventStream_decomp_some (cfg : ResolvedConfig) (pid : Nat)
    (events : List AgentEvent) (er : JsError) :
    wrapEventStream cfg pid events (some er)
      = wrapBody cfg pid (initWrapState (pid + 1)) events
        ++ errorEpilogue pid er := by
  unfold wrapEventStream
  exact wrapGo_decomp_some cfg pid events (initWrapState (pid + 1)) er

/-- C6: after the wrapped stream is fully consumed, the accumulated
output-token estimate equals the fractional accumulation sum of
(text length / 4) over the token-generation events; when positive it is
recorded as the usage attribute on the parent span with exactly that
value, and when zero the usage attribute is never written. -/
theorem C6_output_token_estimate (cfg : ResolvedConfig) (pid : Nat)
    (events : List AgentEvent) :
    (finalState cfg pid events).outputTokens = tokenEstimate events
    ∧ (0 < tokenEstimate events →
        TraceItem.setAttr pid SEMATTRS_GEN_AI_USAGE_OUTPUT_TOKENS
            (.num (tokenEstimate events))
          ∈ wrapEventStream cfg pid events none)
    ∧ (¬ 0 < tokenEstimate events →
        keyWrittenB (wrapEventStream cfg pid events none)
          SEMATTRS_GEN_AI_USAGE_OUTPUT_TOKENS = false) := by
  refine ⟨finalState_outputTokens cfg pid events, ?_, ?_⟩
  · intro hpos
    rw [wrapEventStream_decomp_none]
    refine List.mem_append.mpr (Or.inr ?_)
    unfold flushTrace
    refine List.mem_append.mpr (Or.inl ?_)
    refine (flush_usage_mem cfg pid _ _).mpr ?_
    rw [finalState_outputTokens]
    exact ⟨hpos, rfl⟩
  · intro hzero
    rw [wrapEventStream_decomp_none, keyWrittenB_append]
    rw [keyWritten_wrapBody cfg pid events _
        (by decide) (by decide) (by decide) (by decide) (by decide) (by decide)
        (by decide) (by decide) (by decide) (by decide) (by decide) (by decide)
        (by decide)]
    unfold flushTrace
    rw [keyWrittenB_append]
    rw [flush_usage_none cfg pid _ (by rw [finalState_outputTokens]; exact hzero)]
    simp [keyWrittenB]

theorem C6_witness :
    0 < tokenEstimate [sampleTokenEvent, sampleMsgEvent]
    ∧ TraceItem.setAttr 0 SEMATTRS_GEN_AI_USAGE_OUTPUT_TOKENS
        (.num (tokenEstimate [sampleTokenEvent, sampleMsgEvent]))
      ∈ wrapEventStream (resolveConfig rawCapOff) 0
          [sampleTokenEvent, sampleMsgEvent] none := by
  have hpos : 0 < tokenEstimate [sampleTokenEvent, sampleMsgEvent] := by
    simp [tokenEstimate, isTokenTextEvent, truthyS, sampleTokenEvent,
      sampleMsgEvent, DUST_EVENT_GENERATION_TOKENS,
      DUST_EVENT_AGENT_MESSAGE_SUCCESS]
    decide
  exact ⟨hpos,
    (C6_output_token_estimate (resolveConfig rawCapOff) 0
      [sampleTokenEvent, sampleMsgEvent]).2.1 hpos⟩

/-- C10: on normal stream exhaustion, the finish-reasons attribute on the
parent span is the one-element list [r] exactly when the last
message-success or error event of the sequence determines reason r ("stop"
for a message success, "error" for an agent-level or user-message-level
error), and the attribute key is never written when the sequence contains
no such event. -/
theorem C10_finish_reason_attribute (cfg : ResolvedConfig) (pid : Nat)
    (events : List AgentEvent) :
    (∀ r : String,
      (TraceItem.setAttr pid SEMATTRS_GEN_AI_RESPONSE_FINISH_REASONS
          (.strList [r]) ∈ wrapEventStream cfg pid events none)
        ↔ lastFinish events = some r)
    ∧ (lastFinish events = none →
        keyWrittenB (wrapEventStream cfg pid events none)
          SEMATTRS_GEN_AI_RESPONSE_FINISH_REASONS = false) := by
  constructor
  · intro r
    constructor
    · intro hm
      rw [wrapEventStream_decomp_none] at hm
      rcases List.mem_append.mp hm with hbody | hflush
      · exfalso
        have hkey := keyWrittenB_of_mem_setAttr hbody (by simp)
        rw [keyWritten_wrapBody cfg pid events _
            (by decide) (by decide) (by decide) (by decide) (by decide) (by decide)
            (by decide) (by decide) (by decide) (by decide) (by decide) (by decide)
            (by decide)] at hkey
        cases hkey
      · unfold flushTrace at hflush
        rcases List.mem_append.mp hflush with hattr | hend
        · have := (flush_finish_mem cfg pid _ r).mp hattr
          rw [finalState_finishReason] at this
          exact this.1
        · simp at hend
    · intro hlf
      have hne : ¬ r = "" := by
        rcases lastFinish_values events r hlf with h | h <;> subst h <;> decide
      rw [wrapEventStream_decomp_none]
      refine List.mem_append.mpr (Or.inr ?_)
      unfold flushTrace
      refine List.mem_append.mpr (Or.inl ?_)
      refine (flush_finish_mem cfg pid _ r).mpr ?_
      rw [finalState_finishReason]
      exact ⟨hlf, hne⟩
  · intro hnone
    rw [wrapEventStream_decomp_none, keyWrittenB_append]
    rw [keyWritten_wrapBody cfg pid events _
        (by decide) (by decide) (by decide) (by decide) (by decide) (by decide)
        (by decide) (by decide) (by decide) (by decide) (by decide) (by decide)
        (by decide)]
    unfold flushTrace
    rw [keyWrittenB_append]
    rw [flush_finish_none cfg pid _ (by rw [finalState_finishReason]; exact hnone)]
    simp [keyWrittenB]

theorem C10_witness :
    (TraceItem.setAttr 0 SEMATTRS_GEN_AI_RESPONSE_FINISH_REASONS
        (.strList ["stop"])
      ∈ wrapEventStream (resolveConfig rawCapOff) 0
          [sampleErrorEvent, sampleMsgEvent] none)
    ∧ lastFinish [sampleErrorEvent, sampleMsgEvent] = some "stop" :=
  ⟨((C10_finish_reason_attribute (resolveConfig rawCapOff) 0
      [sampleErrorEvent, sampleMsgEvent]).1 "stop").mpr (by decide),
   by decide⟩

/-- C8: when the underlying stream is exhausted without an exception, the
wrapper trace is the per-event body followed exactly by: the buffered
output content (only when capture is enabled and some text accumulated),
the accumulated output-token count (when positive), the finish reason
(when one was determined), the batched retrieval-document list (when
non-empty), and finally the end of the parent span. -/
theorem C8_flush_on_exhaustion (cfg : ResolvedConfig) (pid : Nat)
    (events : List AgentEvent) :
    wrapEventStream cfg pid events none
      = wrapBody cfg pid (initWrapState (pid + 1)) events
        ++ ((if cfg.captureMessageContent ∧ concatTexts events ≠ "" then
               [TraceItem.setAttr pid SEMATTRS_GEN_AI_OUTPUT_MESSAGES
                  (.str (renderOutputMessages (concatTexts events)))]
             else [])
            ++ (if 0 < tokenEstimate events then
                  [TraceItem.setAttr pid SEMATTRS_GEN_AI_USAGE_OUTPUT_TOKENS
                     (.num (tokenEstimate events))]
                else [])
            ++ (match lastFinish events with
                | some r =>
                  [TraceItem.setAttr pid SEMATTRS_GEN_AI_RESPONSE_FINISH_REASONS
                     (.strList [r])]
                | none => [])
            ++ (if docsOf events = [] then []
                else [TraceItem.setAttr pid SEMATTRS_GEN_AI_RETRIEVAL_DOCUMENTS
                       (.str (renderRetrievalDocuments (docsOf events)))])
            ++ [TraceItem.endSpan pid]) := by
  rw [wrapEventStream_decomp_none]
  congr 1
  unfold flushTrace flushAttrItems
  rw [finalState_outputTokens, finalState_outputContent, finalState_finishReason,
    finalState_retrievalDocuments]
  have hfin : (match lastFinish events with
      | some r =>
        if r = "" then []
        else [TraceItem.setAttr pid SEMATTRS_GEN_AI_RESPONSE_FINISH_REASONS
               (AttrVal.strList [r])]
      | none => ([] : List TraceItem))
      = (match lastFinish events with
         | some r =>
           [TraceItem.setAttr pid SEMATTRS_GEN_AI_RESPONSE_FINISH_REASONS
              (AttrVal.strList [r])]
         | none => []) := by
    cases hlf : lastFinish events with
    | none => rfl
    | some r =>
      have hne : ¬ r = "" := by
        rcases lastFinish_values events r hlf with h | h <;> subst h <;> decide
      simp [hne]
  rw [hfin]
  by_cases hc : cfg.captureMessageContent <;> simp [hc, List.append_assoc]

theorem C8_witness :
    wrapEventStream (resolveConfig rawCapOn) 0
        [sampleTokenEvent, sampleToolEvent, sampleMsgEvent] none
      = wrapBody (resolveConfig rawCapOn) 0 (initWrapState 1)
          [sampleTokenEvent, sampleToolEvent, sampleMsgEvent]
        ++ ([TraceItem.setAttr 0 SEMATTRS_GEN_AI_OUTPUT_MESSAGES
              (.str (renderOutputMessages
                (concatTexts [sampleTokenEvent, sampleToolEvent, sampleMsgEvent])))]
            ++ [TraceItem.setAttr 0 SEMATTRS_GEN_AI_USAGE_OUTPUT_TOKENS
                 (.num (tokenEstimate
                   [sampleTokenEvent, sampleToolEvent, sampleMsgEvent]))]
            ++ [TraceItem.setAttr 0 SEMATTRS_GEN_AI_RESPONSE_FINISH_REASONS
                 (.strList ["stop"])]
            ++ [TraceItem.setAttr 0 SEMATTRS_GEN_AI_RETRIEVAL_DOCUMENTS
                 (.str (renderRetrievalDocuments
                   (docsOf [sampleTokenEvent, sampleToolEvent, sampleMsgEvent])))]
            ++ [TraceItem.endSpan 0]) := by
  rw [C8_flush_on_exhaustion]
  congr 1
  have h1 : concatTexts [sampleTokenEvent, sampleToolEvent, sampleMsgEvent]
      = "Hello wor" := by decide
  have h2 : lastFinish [sampleTokenEvent, sampleToolEvent, sampleMsgEvent]
      = some "stop" := by decide
  have h3 : docsOf [sampleTokenEvent, sampleToolEvent, sampleMsgEvent]
      = [sampleResourceItem.serialized] := by decide
  have h4 : 0 < tokenEstimate [sampleTokenEvent, sampleToolEvent, sampleMsgEvent] := by
    simp [tokenEstimate, isTokenTextEvent, truthyS, sampleTokenEvent,
      sampleToolEvent, sampleMsgEvent, DUST_EVENT_GENERATION_TOKENS,
      DUST_EVENT_AGENT_ACTION_SUCCESS, DUST_EVENT_AGENT_MESSAGE_SUCCESS]
    decide
  rw [h2]
  simp only [h1, h3, h4, if_pos]
  have hcap : (resolveConfig rawCapOn).captureMessageContent = true := by decide
  simp [hcap, List.append_assoc]

theorem countChildStarts_flushTrace (cfg : ResolvedConfig) (pid : Nat)
    (st : WrapState) : countChildStarts (flushTrace cfg pid st) = 0 := by
  unfold flushTrace
  rw [countChildStarts_append, countChildStarts_attrOnly (attrOnly_flushAttrItems cfg pid st)]
  simp [countChildStarts, List.countP_cons, isChildStart]

theorem countChildStarts_errorEpilogue (pid : Nat) (er : JsError) :
    countChildStarts (errorEpilogue pid er) = 0 := by
  simp [errorEpilogue, countChildStarts, List.countP_cons, isChildStart]

/-- The whole wrapper trace contains exactly one child-span start per
tool event. -/
theorem countChildStarts_wrapEventStream (cfg : ResolvedConfig) (pid : Nat)
    (events : List AgentEvent) (err : Option JsError) :
    countChildStarts (wrapEventStream cfg pid events err)
      = countToolEvents events := by
  cases err with
  | none =>
    rw [wrapEventStream_decomp_none, countChildStarts_append,
      countChildStarts_wrapBody, countChildStarts_flushTrace]
    omega
  | some er =>
    rw [wrapEventStream_decomp_some, countChildStarts_append,
      countChildStarts_wrapBody, countChildStarts_errorEpilogue]
    omega

/-- At every yield of the wrapper trace, no child span is open. -/
theorem childOkB_wrapEventStream (cfg : ResolvedConfig) (pid : Nat)
    (events : List AgentEvent) (err : Option JsError) :
    childOkB [] (wrapEventStream cfg pid events err) = true := by
  cases err with
  | none =>
    rw [wrapEventStream_decomp_none, childOkB_append, childOkB_wrapBody,
      childRun_wrapBody]
    rw [childOkB_noYield (yieldedEvents_flushTrace cfg pid _)]
    rfl
  | some er =>
    rw [wrapEventStream_decomp_some, childOkB_append, childOkB_wrapBody,
      childRun_wrapBody]
    rw [childOkB_noYield (yieldedEvents_errorEpilogue pid er)]
    rfl

/-- C5: every agent_action_success event with a truthy action produces
exactly one tool child span, parented to the active stream span, whose
start carries the tool name and call id, and which is ended as the last
item of the event's own trace segment — before the event is yielded and
before the next event is processed; globally, the number of child-span
starts equals the number of such tool events, and no child span is ever
open at a yield point. -/
theorem C5_tool_child_spans (cfg : ResolvedConfig) (pid : Nat)
    (st : WrapState) (e : AgentEvent) (a : AgentAction)
    (rest events : List AgentEvent) (err : Option JsError)
    (htype : e.type = DUST_EVENT_AGENT_ACTION_SUCCESS)
    (hact : e.action = some a) :
    (eventSideEffects cfg pid st e).1 = toolItems cfg pid st.nextId a
    ∧ (toolItems cfg pid st.nextId a).head?
        = some (TraceItem.startSpan st.nextId (some pid)
            GEN_AI_OPERATION_EXECUTE_TOOL (toolStartAttrs a))
    ∧ (toolItems cfg pid st.nextId a).getLast?
        = some (TraceItem.endSpan st.nextId)
    ∧ (SEMATTRS_GEN_AI_TOOL_NAME,
        AttrVal.str (jsOr a.functionCallName "unknown")) ∈ toolStartAttrs a
    ∧ (SEMATTRS_GEN_AI_TOOL_CALL_ID,
        AttrVal.str (jsOr a.functionCallId (jsOr a.sId "unknown")))
        ∈ toolStartAttrs a
    ∧ wrapGo cfg pid st (e :: rest) err
        = toolItems cfg pid st.nextId a
            ++ (TraceItem.yieldEvent e
                :: wrapGo cfg pid (stepState cfg pid st e) rest err)
    ∧ countChildStarts (wrapEventStream cfg pid events err)
        = countToolEvents events
    ∧ childOkB [] (wrapEventStream cfg pid events err) = true := by
  have h1 : ¬ e.type = DUST_EVENT_GENERATION_TOKENS := by
    rw [htype]; decide
  have hseg : (eventSideEffects cfg pid st e).1 = toolItems cfg pid st.nextId a := by
    unfold eventSideEffects
    simp [h1, htype, hact, DUST_EVENT_GENERATION_TOKENS,
      DUST_EVENT_AGENT_ACTION_SUCCESS]
  refine ⟨hseg, by simp [toolItems], ?_, by simp [toolStartAttrs],
    by simp [toolStartAttrs], ?_,
    countChildStarts_wrapEventStream cfg pid events err,
    childOkB_wrapEventStream cfg pid events err⟩
  · rw [toolItems_split]
    exact List.getLast?_concat _
  · simp only [wrapGo]
    rw [hseg]
    rfl

theorem C5_witness :
    (eventSideEffects (resolveConfig rawCapOn) 0 (initWrapState 1)
        sampleToolEvent).1
      = toolItems (resolveConfig rawCapOn) 0 1 sampleAction
    ∧ countChildStarts (wrapEventStream (resolveConfig rawCapOn) 0
        [sampleToolEvent] none) = countToolEvents [sampleToolEvent]
    ∧ childOkB [] (wrapEventStream (resolveConfig rawCapOn) 0
        [sampleToolEvent] none) = true :=
  ⟨(C5_tool_child_spans (resolveConfig rawCapOn) 0 (initWrapState 1)
      sampleToolEvent sampleAction [sampleMsgEvent] [sampleToolEvent] none
      rfl rfl).1,
   (C5_tool_child_spans (resolveConfig rawCapOn) 0 (initWrapState 1)
      sampleToolEvent sampleAction [sampleMsgEvent] [sampleToolEvent] none
      rfl rfl).2.2.2.2.2.2.1,
   (C5_tool_child_spans (resolveConfig rawCapOn) 0 (initWrapState 1)
      sampleToolEvent sampleAction [sampleMsgEvent] [sampleToolEvent] none
      rfl rfl).2.2.2.2.2.2.2⟩

/-! Trace facts for the patched-method prologue and error paths. -/

theorem startedIds_ccStartItems (cfg : ResolvedConfig) (args : CCArgs) :
    startedIds (ccStartItems cfg args) = [0] := by
  unfold ccStartItems
  repeat' split
  all_goals simp [startedIds, List.filterMap_cons, List.filterMap_append]

theorem countEnd_ccStartItems (cfg : ResolvedConfig) (args : CCArgs) (s : Nat) :
    countEnd (ccStartItems cfg args) s = 0 := by
  unfold ccStartItems
  repeat' split
  all_goals simp [countEnd, List.countP_cons, List.countP_append]

theorem startedIds_sAStartItems (args : StreamArgs) :
    startedIds (sAStartItems args) = [0] := by
  simp [sAStartItems, startedIds, List.filterMap_cons]

theorem countEnd_sAStartItems (args : StreamArgs) (s : Nat) :
    countEnd (sAStartItems args) s = 0 := by
  simp [sAStartItems, countEnd, List.countP_cons]

theorem startedIds_catchItems (sid : Nat) (er : JsError) :
    startedIds (catchItems sid er) = [] := by
  simp [catchItems, startedIds, List.filterMap_cons]

theorem countEnd_catchItems (sid : Nat) (er : JsError) (s : Nat) :
    countEnd (catchItems sid er) s = if sid = s then 1 else 0 := by
  simp only [catchItems, countEnd, List.countP_cons, List.countP_nil]
  split <;> simp_all

theorem hasErrorStatus_catchItems (sid : Nat) (er : JsError) :
    hasErrorStatus (catchItems sid er) sid = true := by
  simp [catchItems, hasErrorStatus]

theorem recordException_mem_catchItems (sid : Nat) (er : JsError) :
    TraceItem.recordException sid er.name er.message ∈ catchItems sid er := by
  simp [catchItems]

theorem startedIds_errFlaggedItems (sid : Nat) (e : Option ResultError) :
    startedIds (errFlaggedItems sid e) = [] := by
  simp [errFlaggedItems, startedIds, List.filterMap_cons]

theorem countEnd_errFlaggedItems (sid : Nat) (e : Option ResultError) (s : Nat) :
    countEnd (errFlaggedItems sid e) s = 0 := by
  simp [errFlaggedItems, countEnd, List.countP_cons]

theorem hasErrorStatus_errFlaggedItems (sid : Nat) (e : Option ResultError) :
    hasErrorStatus (errFlaggedItems sid e) sid = true := by
  simp [errFlaggedItems, hasErrorStatus]

theorem hasErrorStatus_errorEpilogue (pid : Nat) (er : JsError) :
    hasErrorStatus (errorEpilogue pid er) pid = true := by
  simp [errorEpilogue, hasErrorStatus]

/-- The parent span of the wrapper is ended exactly once, whether the
stream ends normally or throws. -/
theorem countEnd_wrapEventStream_pid (cfg : ResolvedConfig) (pid : Nat)
    (events : List AgentEvent) (err : Option JsError) :
    countEnd (wrapEventStream cfg pid events err) pid = 1 := by
  have hinit : pid < (initWrapState (pid + 1)).nextId := by
    simp [initWrapState]
  cases err with
  | none =>
    rw [wrapEventStream_decomp_none, countEnd_append,
      countEnd_wrapBody cfg pid events _ hinit, countEnd_flushTrace]
    simp
  | some er =>
    rw [wrapEventStream_decomp_some, countEnd_append,
      countEnd_wrapBody cfg pid events _ hinit, countEnd_errorEpilogue]
    simp

/-- Every span started inside the wrapper trace is also ended there. -/
theorem startedEnded_wrapEventStream (cfg : ResolvedConfig) (pid : Nat)
    (events : List AgentEvent) (err : Option JsError) :
    ∀ s ∈ startedIds (wrapEventStream cfg pid events err),
      1 ≤ countEnd (wrapEventStream cfg pid events err) s := by
  intro s hs
  cases err with
  | none =>
    rw [wrapEventStream_decomp_none] at hs ⊢
    rw [startedIds_append, startedIds_flushTrace, List.append_nil] at hs
    rw [countEnd_append]
    have := startedEnded_wrapBody cfg pid events (initWrapState (pid + 1)) s hs
    omega
  | some er =>
    rw [wrapEventStream_decomp_some] at hs ⊢
    rw [startedIds_append, startedIds_errorEpilogue, List.append_nil] at hs
    rw [countEnd_append]
    have := startedEnded_wrapBody cfg pid events (initWrapState (pid + 1)) s hs
    omega

/-- C3: every failing outcome of a patched call — an error-flagged result
object, a rejected promise, or an event stream that throws during
iteration — ends the associated span exactly once with an error status,
leaves no started span open, records any thrown exception on the span,
and hands the failure back to the caller unchanged. -/
theorem C3_failure_handling (raw : RawConfig)
    (hen : (resolveConfig raw).enabled = true)
    (args : CCArgs) (er : JsError)
    (r : DustResult CCValue) (hflag : r.errFlagged = true)
    (sargs : StreamArgs) (ser : JsError)
    (sr : DustResult StreamValue) (hsflag : sr.errFlagged = true)
    (sr2 : DustResult StreamValue) (v : StreamValue) (er2 : JsError)
    (hs2flag : sr2.errFlagged = false) (hs2val : sr2.value = some v)
    (hserr : v.streamError = some er2) :
    ((patchedCreateConversation raw args (.reject er)).2 = .reject er
      ∧ startedIds (patchedCreateConversation raw args (.reject er)).1 = [0]
      ∧ countEnd (patchedCreateConversation raw args (.reject er)).1 0 = 1
      ∧ hasErrorStatus (patchedCreateConversation raw args (.reject er)).1 0 = true
      ∧ TraceItem.recordException 0 er.name er.message
          ∈ (patchedCreateConversation raw args (.reject er)).1)
    ∧ ((patchedCreateConversation raw args (.resolve r)).2 = .resolve r
      ∧ startedIds (patchedCreateConversation raw args (.resolve r)).1 = [0]
      ∧ countEnd (patchedCreateConversation raw args (.resolve r)).1 0 = 1
      ∧ hasErrorStatus (patchedCreateConversation raw args (.resolve r)).1 0 = true)
    ∧ ((patchedStreamAgentAnswerEvents raw sargs (.reject ser)).2 = .reject ser
      ∧ startedIds (patchedStreamAgentAnswerEvents raw sargs (.reject ser)).1 = [0]
      ∧ countEnd (patchedStreamAgentAnswerEvents raw sargs (.reject ser)).1 0 = 1
      ∧ hasErrorStatus (patchedStreamAgentAnswerEvents raw sargs (.reject ser)).1 0 = true
      ∧ TraceItem.recordException 0 ser.name ser.message
          ∈ (patchedStreamAgentAnswerEvents raw sargs (.reject ser)).1)
    ∧ ((patchedStreamAgentAnswerEvents raw sargs (.resolve sr)).2 = .resolve sr
      ∧ startedIds (patchedStreamAgentAnswerEvents raw sargs (.resolve sr)).1 = [0]
      ∧ countEnd (patchedStreamAgentAnswerEvents raw sargs (.resolve sr)).1 0 = 1
      ∧ hasErrorStatus (patchedStreamAgentAnswerEvents raw sargs (.resolve sr)).1 0 = true)
    ∧ (countEnd (patchedStreamAgentAnswerEvents raw sargs (.resolve sr2)).1 0 = 1
      ∧ hasErrorStatus (patchedStreamAgentAnswerEvents raw sargs (.resolve sr2)).1 0 = true
      ∧ TraceItem.recordException 0 er2.name er2.message
          ∈ (patchedStreamAgentAnswerEvents raw sargs (.resolve sr2)).1
      ∧ (∀ s ∈ startedIds (patchedStreamAgentAnswerEvents raw sargs (.resolve sr2)).1,
          1 ≤ countEnd (patchedStreamAgentAnswerEvents raw sargs (.resolve sr2)).1 s)
      ∧ (patchedStreamAgentAnswerEvents raw sargs (.resolve sr2)).2 = .resolve sr2) := by
  have hcc1 : patchedCreateConversation raw args (.reject er)
      = (ccStartItems (resolveConfig raw) args ++ catchItems 0 er, .reject er) := by
    unfold patchedCreateConversation
    simp [hen]
  have hcc2 : patchedCreateConversation raw args (.resolve r)
      = (ccStartItems (resolveConfig raw) args ++ errFlaggedItems 0 r.error
           ++ [TraceItem.endSpan 0], .resolve r) := by
    unfold patchedCreateConversation
    simp [hen, hflag]
  have hsa1 : patchedStreamAgentAnswerEvents raw sargs (.reject ser)
      = (sAStartItems sargs ++ catchItems 0 ser, .reject ser) := by
    unfold patchedStreamAgentAnswerEvents
    simp [hen]
  have hsa2 : patchedStreamAgentAnswerEvents raw sargs (.resolve sr)
      = (sAStartItems sargs ++ errFlaggedItems 0 sr.error
           ++ [TraceItem.endSpan 0], .resolve sr) := by
    unfold patchedStreamAgentAnswerEvents
    simp [hen, hsflag]
  have hsa3 : patchedStreamAgentAnswerEvents raw sargs (.resolve sr2)
      = (sAStartItems sargs
           ++ wrapEventStream (resolveConfig raw) 0 v.events v.streamError,
         .resolve sr2) := by
    unfold patchedStreamAgentAnswerEvents
    simp only [hen, if_true, hs2flag, Bool.false_eq_true, if_false, hs2val]
    simp only [Prod.mk.injEq, true_and]
    rw [yieldedEvents_wrapEventStream]
    cases sr2 with
    | mk d iv re val =>
      cases v with
      | mk evs serr =>
        simp only [DustResult.mk.injEq] at hs2val ⊢
        simp [hs2val]
  refine ⟨⟨?_, ?_, ?_, ?_, ?_⟩, ⟨?_, ?_, ?_, ?_⟩, ⟨?_, ?_, ?_, ?_, ?_⟩,
    ⟨?_, ?_, ?_, ?_⟩, ⟨?_, ?_, ?_, ?_, ?_⟩⟩
  · rw [hcc1]
  · rw [hcc1]
    simp only []
    rw [startedIds_append, startedIds_ccStartItems, startedIds_catchItems]
    simp
  · rw [hcc1]
    simp only []
    rw [countEnd_append, countEnd_ccStartItems, countEnd_catchItems]
    simp
  · rw [hcc1]
    simp only []
    rw [hasErrorStatus_append]
    rw [hasErrorStatus_catchItems]
    simp
  · rw [hcc1]
    simp only []
    exact List.mem_append.mpr (Or.inr (recordException_mem_catchItems 0 er))
  · rw [hcc2]
  · rw [hcc2]
    simp only []
    rw [startedIds_append, startedIds_append, startedIds_ccStartItems,
      startedIds_errFlaggedItems]
    simp [startedIds]
  · rw [hcc2]
    simp only []
    rw [countEnd_append, countEnd_append, countEnd_ccStartItems,
      countEnd_errFlaggedItems]
    simp [countEnd, List.countP_cons]
  · rw [hcc2]
    simp only []
    rw [hasErrorStatus_append, hasErrorStatus_append, hasErrorStatus_errFlaggedItems]
    simp
  · rw [hsa1]
  · rw [hsa1]
    simp only []
    rw [startedIds_append, startedIds_sAStartItems, startedIds_catchItems]
    simp
  · rw [hsa1]
    simp only []
    rw [countEnd_append, countEnd_sAStartItems, countEnd_catchItems]
    simp
  · rw [hsa1]
    simp only []
    rw [hasErrorStatus_append, hasErrorStatus_catchItems]
    simp
  · rw [hsa1]
    simp only []
    exact List.mem_append.mpr (Or.inr (recordException_mem_catchItems 0 ser))
  · rw [hsa2]
  · rw [hsa2]
    simp only []
    rw [startedIds_append, startedIds_append, startedIds_sAStartItems,
      startedIds_errFlaggedItems]
    simp [startedIds]
  · rw [hsa2]
    simp only []
    rw [countEnd_append, countEnd_append, countEnd_sAStartItems,
      countEnd_errFlaggedItems]
    simp [countEnd, List.countP_cons]
  · rw [hsa2]
    simp only []
    rw [hasErrorStatus_append, hasErrorStatus_append, hasErrorStatus_errFlaggedItems]
    simp
  · rw [hsa3]
    simp only []
    rw [countEnd_append, countEnd_sAStartItems, countEnd_wrapEventStream_pid]
  · rw [hsa3]
    simp only []
    rw [hasErrorStatus_append]
    rw [hserr]
    rw [wrapEventStream_decomp_some, hasErrorStatus_append,
      hasErrorStatus_errorEpilogue]
    simp
  · rw [hsa3]
    simp only []
    refine List.mem_append.mpr (Or.inr ?_)
    rw [hserr, wrapEventStream_decomp_some]
    refine List.mem_append.mpr (Or.inr ?_)
    simp [errorEpilogue]
  · rw [hsa3]
    simp only []
    intro s hs
    rw [startedIds_append, startedIds_sAStartItems] at hs
    rw [countEnd_append]
    rcases List.mem_append.mp hs with h0 | hw
    · simp only [List.mem_singleton] at h0
      subst h0
      rw [countEnd_sAStartItems, countEnd_wrapEventStream_pid]
    · have := startedEnded_wrapEventStream (resolveConfig raw) 0 v.events
        v.streamError s hw
      omega
  · rw [hsa3]

def ccArgsW : CCArgs :=
  { mentionConfigId := some "agent-1", email := some "u@example.com",
    content := some "hi" }

def jsErrW : JsError := { name := "Error", message := "boom" }

def ccErrResult : DustResult CCValue :=
  { isErrDefined := true, isErrValue := true,
    error := some { type := some "api_error", message := some "bad request" },
    value := none }

def streamErrResult : DustResult StreamValue :=
  { isErrDefined := true, isErrValue := true,
    error := some { type := some "api_error", message := some "bad request" },
    value := none }

def throwingStreamValue : StreamValue :=
  { events := [sampleTokenEvent],
    streamError := some { name := "Error", message := "mid-stream" } }

def throwingStreamResult : DustResult StreamValue :=
  { isErrDefined := true, isErrValue := false, error := none,
    value := some throwingStreamValue }

theorem C3_witness :
    countEnd (patchedCreateConversation rawCapOff ccArgsW (.reject jsErrW)).1 0 = 1
    ∧ hasErrorStatus (patchedCreateConversation rawCapOff ccArgsW
        (.resolve ccErrResult)).1 0 = true
    ∧ countEnd (patchedStreamAgentAnswerEvents rawCapOff
        { conversationSId := "c-1" } (.resolve throwingStreamResult)).1 0 = 1 := by
  have h := C3_failure_handling rawCapOff (by decide) ccArgsW jsErrW
    ccErrResult rfl { conversationSId := "c-1" } jsErrW streamErrResult rfl
    throwingStreamResult throwingStreamValue
    { name := "Error", message := "mid-stream" } rfl rfl rfl
  exact ⟨h.1.2.2.1, h.2.1.2.2.2, h.2.2.2.2.1⟩

theorem attrSetB_append (l₁ l₂ : List TraceItem) (sid : Nat) (key : String) :
    attrSetB (l₁ ++ l₂) sid key = (attrSetB l₁ sid key || attrSetB l₂ sid key) := by
  simp [attrSetB, List.any_append]

/-- The createConversation span prologue writes none of the
conversation-id or response-id keys. -/
theorem attrSetB_ccStartItems (cfg : ResolvedConfig) (args : CCArgs)
    (sid : Nat) (key : String)
    (h1 : SEMATTRS_GEN_AI_OPERATION_NAME ≠ key)
    (h2 : SEMATTRS_GEN_AI_PROVIDER_NAME ≠ key)
    (h3 : SEMATTRS_GEN_AI_AGENT_ID ≠ key)
    (h4 : SEMATTRS_ENDUSER_ID ≠ key)
    (h5 : SEMATTRS_GEN_AI_INPUT_MESSAGES ≠ key) :
    attrSetB (ccStartItems cfg args) sid key = false := by
  unfold ccStartItems
  repeat' split
  all_goals simp_all [attrSetB, List.any_append, h1, h2, h3, h4, h5]

/-- A result carrying a message whose sId is the empty string: the
response id is present in the result, yet the code's truthiness guard
skips the attribute. -/
def emptyIdResult : DustResult CCValue :=
  { isErrDefined := true, isErrValue := false, error := none,
    value := some { conversationSId := some "conv-1", messageSId := some "" } }

/-- C4 counterexample: for an enabled, non-error-flagged
createConversation result whose message id is present (the empty string),
the gen_ai.response.id attribute is NOT set, refuting the claimed
"attribute set iff id present" biconditional as stated. -/
theorem C4_counterexample :
    (resolveConfig rawCapOff).enabled = true
    ∧ emptyIdResult.errFlagged = false
    ∧ emptyIdResult.value
        = some { conversationSId := some "conv-1", messageSId := some "" }
    ∧ attrSetB (patchedCreateConversation rawCapOff ccArgsW
        (.resolve emptyIdResult)).1 0 SEMATTRS_GEN_AI_RESPONSE_ID = false := by
  refine ⟨rfl, rfl, rfl, ?_⟩
  decide

/-- C4 (amended): for every successful createConversation call (enabled,
result not error-flagged), exactly one span is produced and ended exactly
once; the conversation-id attribute is set iff the result value and its
conversation field are present (the write of an absent id is an undefined
value, which the tracing API drops); the response-id attribute is set iff
the message id is present and non-empty (the code guards it with JS
truthiness, so an empty-string id is skipped); and the result object is
returned unchanged. -/
theorem C4_create_conversation_span (raw : RawConfig) (args : CCArgs)
    (r : DustResult CCValue)
    (hen : (resolveConfig raw).enabled = true)
    (hflag : r.errFlagged = false) :
    startedIds (patchedCreateConversation raw args (.resolve r)).1 = [0]
    ∧ countEnd (patchedCreateConversation raw args (.resolve r)).1 0 = 1
    ∧ (attrSetB (patchedCreateConversation raw args (.resolve r)).1 0
          SEMATTRS_GEN_AI_CONVERSATION_ID = true
        ↔ (∃ v, r.value = some v ∧ v.conversationSId.isSome = true))
    ∧ (attrSetB (patchedCreateConversation raw args (.resolve r)).1 0
          SEMATTRS_GEN_AI_RESPONSE_ID = true
        ↔ (∃ v, r.value = some v ∧ truthyS v.messageSId = true))
    ∧ (patchedCreateConversation raw args (.resolve r)).2 = .resolve r := by
  cases hv : r.value with
  | none =>
    have hsucc : patchedCreateConversation raw args (.resolve r)
        = (ccStartItems (resolveConfig raw) args ++ [TraceItem.endSpan 0],
           .resolve r) := by
      unfold patchedCreateConversation
      simp [hen, hflag, hv]
    rw [hsucc]
    refine ⟨?_, ?_, ?_, ?_, rfl⟩
    · rw [startedIds_append, startedIds_ccStartItems]
      simp [startedIds]
    · rw [countEnd_append, countEnd_ccStartItems]
      simp [countEnd, List.countP_cons]
    · rw [attrSetB_append,
        attrSetB_ccStartItems _ _ _ _ (by decide) (by decide) (by decide)
          (by decide) (by decide)]
      simp [attrSetB, hv]
    · rw [attrSetB_append,
        attrSetB_ccStartItems _ _ _ _ (by decide) (by decide) (by decide)
          (by decide) (by decide)]
      simp [attrSetB, hv]
  | some v =>
    have hsucc : patchedCreateConversation raw args (.resolve r)
        = (ccStartItems (resolveConfig raw) args
             ++ (TraceItem.setAttr 0 SEMATTRS_GEN_AI_CONVERSATION_ID
                   (optAttr v.conversationSId)
                 :: (if truthyS v.messageSId then
                       [TraceItem.setAttr 0 SEMATTRS_GEN_AI_RESPONSE_ID
                          (.str (v.messageSId.getD ""))]
                     else []))
             ++ [TraceItem.endSpan 0], .resolve r) := by
      unfold patchedCreateConversation
      simp [hen, hflag, hv]
    rw [hsucc]
    refine ⟨?_, ?_, ?_, ?_, rfl⟩
    · rw [startedIds_append, startedIds_append, startedIds_ccStartItems]
      cases hm : truthyS v.messageSId <;> simp [hm, startedIds]
    · rw [countEnd_append, countEnd_append, countEnd_ccStartItems]
      cases hm : truthyS v.messageSId <;>
        simp [hm, countEnd, List.countP_cons]
    · rw [attrSetB_append, attrSetB_append,
        attrSetB_ccStartItems _ _ _ _ (by decide) (by decide) (by decide)
          (by decide) (by decide)]
      cases hc : v.conversationSId with
      | none =>
        cases hm : truthyS v.messageSId <;>
          simp [hm, hv, hc, attrSetB, optAttr, SEMATTRS_GEN_AI_CONVERSATION_ID,
            SEMATTRS_GEN_AI_RESPONSE_ID]
      | some c =>
        cases hm : truthyS v.messageSId <;>
          simp [hm, hv, hc, attrSetB, optAttr, SEMATTRS_GEN_AI_CONVERSATION_ID,
            SEMATTRS_GEN_AI_RESPONSE_ID]
    · rw [attrSetB_append, attrSetB_append,
        attrSetB_ccStartItems _ _ _ _ (by decide) (by decide) (by decide)
          (by decide) (by decide)]
      cases hc : v.conversationSId with
      | none =>
        cases hm : truthyS v.messageSId <;>
          simp [hm, hv, hc, attrSetB, optAttr, SEMATTRS_GEN_AI_CONVERSATION_ID,
            SEMATTRS_GEN_AI_RESPONSE_ID]
      | some c =>
        cases hm : truthyS v.messageSId <;>
          simp [hm, hv, hc, attrSetB, optAttr, SEMATTRS_GEN_AI_CONVERSATION_ID,
            SEMATTRS_GEN_AI_RESPONSE_ID]

theorem C4_witness :
    startedIds (patchedCreateConversation rawCapOff ccArgsW
        (.resolve emptyIdResult)).1 = [0]
    ∧ countEnd (patchedCreateConversation rawCapOff ccArgsW
        (.resolve emptyIdResult)).1 0 = 1
    ∧ (attrSetB (patchedCreateConversation rawCapOff ccArgsW
          (.resolve emptyIdResult)).1 0 SEMATTRS_GEN_AI_CONVERSATION_ID = true
        ↔ (∃ v, emptyIdResult.value = some v ∧ v.conversationSId.isSome = true)) := by
  have h := C4_create_conversation_span rawCapOff ccArgsW emptyIdResult
    (by decide) rfl
  exact ⟨h.1, h.2.1, h.2.2.1⟩

theorem keyWritten_errorEpilogue (pid : Nat) (er : JsError) (key : String) :
    keyWrittenB (errorEpilogue pid er) key = false := by
  simp [errorEpilogue, keyWrittenB]

theorem keyWritten_catchItems (sid : Nat) (er : JsError) (key : String)
    (h : SEMATTRS_ERROR_TYPE ≠ key) :
    keyWrittenB (catchItems sid er) key = false := by
  simp [catchItems, keyWrittenB, h]

theorem keyWritten_errFlaggedItems (sid : Nat) (e : Option ResultError)
    (key : String) (h : SEMATTRS_ERROR_TYPE ≠ key) :
    keyWrittenB (errFlaggedItems sid e) key = false := by
  simp [errFlaggedItems, keyWrittenB, h]

theorem keyWritten_sAStartItems (args : StreamArgs) (key : String)
    (h1 : SEMATTRS_GEN_AI_OPERATION_NAME ≠ key)
    (h2 : SEMATTRS_GEN_AI_PROVIDER_NAME ≠ key)
    (h3 : SEMATTRS_GEN_AI_CONVERSATION_ID ≠ key) :
    keyWrittenB (sAStartItems args) key = false := by
  simp [sAStartItems, keyWrittenB, h1, h2, h3]

/-- With content capture disabled the createConversation prologue writes
only operation/provider/agent-id/enduser-id keys. -/
theorem keyWritten_ccStartItems_nocap (cfg : ResolvedConfig) (args : CCArgs)
    (key : String) (hcap : cfg.captureMessageContent = false)
    (h1 : SEMATTRS_GEN_AI_OPERATION_NAME ≠ key)
    (h2 : SEMATTRS_GEN_AI_PROVIDER_NAME ≠ key)
    (h3 : SEMATTRS_GEN_AI_AGENT_ID ≠ key)
    (h4 : SEMATTRS_ENDUSER_ID ≠ key) :
    keyWrittenB (ccStartItems cfg args) key = false := by
  unfold ccStartItems
  repeat' split
  all_goals simp_all [keyWrittenB, List.any_append, h1, h2, h3, h4]

/-- With content capture disabled, the whole wrapper trace never writes
any of the four content-bearing attribute keys. -/
theorem keyWritten_wrapEventStream_nocapture (cfg : ResolvedConfig)
    (pid : Nat) (events : List AgentEvent) (err : Option JsError)
    (key : String) (hcap : cfg.captureMessageContent = false)
    (hkey : key = SEMATTRS_GEN_AI_INPUT_MESSAGES
        ∨ key = SEMATTRS_GEN_AI_OUTPUT_MESSAGES
        ∨ key = SEMATTRS_GEN_AI_TOOL_CALL_ARGUMENTS
        ∨ key = SEMATTRS_GEN_AI_TOOL_CALL_RESULT) :
    keyWrittenB (wrapEventStream cfg pid events err) key = false := by
  have hbody : keyWrittenB (wrapBody cfg pid (initWrapState (pid + 1)) events) key
      = false := by
    rcases hkey with hk | hk | hk | hk
    · subst hk
      exact keyWritten_wrapBody cfg pid events _ (by decide) (by decide)
        (by decide) (by decide) (by decide) (by decide) (by decide) (by decide)
        (by decide) (by decide) (by decide) (by decide) (by decide) _
    · subst hk
      exact keyWritten_wrapBody cfg pid events _ (by decide) (by decide)
        (by decide) (by decide) (by decide) (by decide) (by decide) (by decide)
        (by decide) (by decide) (by decide) (by decide) (by decide) _
    · subst hk
      exact keyWritten_wrapBody_nocapture cfg pid events _ hcap (Or.inl rfl) _
    · subst hk
      exact keyWritten_wrapBody_nocapture cfg pid events _ hcap (Or.inr rfl) _
  cases err with
  | none =>
    rw [wrapEventStream_decomp_none, keyWrittenB_append, hbody]
    unfold flushTrace
    rw [keyWrittenB_append]
    have hflush : keyWrittenB (flushAttrItems cfg pid (finalState cfg pid events))
        key = false := by
      rcases hkey with hk | hk | hk | hk
      · subst hk
        exact flush_key_false cfg pid _ _ (by decide) (by decide) (by decide)
          (by decide)
      · subst hk
        exact flush_output_nocapture cfg pid _ hcap
      · subst hk
        exact flush_key_false cfg pid _ _ (by decide) (by decide) (by decide)
          (by decide)
      · subst hk
        exact flush_key_false cfg pid _ _ (by decide) (by decide) (by decide)
          (by decide)
    rw [hflush]
    simp [keyWrittenB]
  | some er =>
    rw [wrapEventStream_decomp_some, keyWrittenB_append, hbody,
      keyWritten_errorEpilogue]
    rfl

/-- C7 counterexample: with content capture disabled, a tool-execution
event whose output contains a resource item still gets that item — part
of the tool-call result — serialized into the gen_ai.retrieval.documents
span attribute: the payload string of the tool result appears verbatim in
a span attribute value. -/
theorem C7_counterexample :
    (resolveConfig rawCapOff).captureMessageContent = false
    ∧ sampleToolEvent.action = some sampleAction
    ∧ sampleAction.output = some (ActionOutput.arr [sampleResourceItem])
    ∧ decide (List.IsInfix ("SECRET-PAYLOAD").data
        sampleResourceItem.serialized.data) = true
    ∧ attrValueContainsB (wrapEventStream (resolveConfig rawCapOff) 0
        [sampleToolEvent] none) "SECRET-PAYLOAD" = true := by
  refine ⟨rfl, rfl, rfl, by decide, by decide⟩

/-- C7 (amended): with captureMessageContent = false, neither patched
method nor the stream wrapper ever writes any of the content-bearing
attribute keys — input messages, output messages, tool-call arguments,
tool-call result — on any span, for every input, settlement, and event
sequence.  (What the counterexample forces out of the original claim:
retrieval-document and resource items taken from tool results are still
batched into the gen_ai.retrieval.documents attribute regardless of the
capture setting.) -/
theorem C7_no_content_attributes (raw : RawConfig)
    (hcap : (resolveConfig raw).captureMessageContent = false)
    (args : CCArgs) (o : CallOutcome (DustResult CCValue))
    (sargs : StreamArgs) (so : CallOutcome (DustResult StreamValue))
    (key : String)
    (hkey : key = SEMATTRS_GEN_AI_INPUT_MESSAGES
        ∨ key = SEMATTRS_GEN_AI_OUTPUT_MESSAGES
        ∨ key = SEMATTRS_GEN_AI_TOOL_CALL_ARGUMENTS
        ∨ key = SEMATTRS_GEN_AI_TOOL_CALL_RESULT) :
    keyWrittenB (patchedCreateConversation raw args o).1 key = false
    ∧ keyWrittenB (patchedStreamAgentAnswerEvents raw sargs so).1 key = false := by
  have hET : SEMATTRS_ERROR_TYPE ≠ key := by
    rcases hkey with hk | hk | hk | hk <;> subst hk <;> decide
  have hOP : SEMATTRS_GEN_AI_OPERATION_NAME ≠ key := by
    rcases hkey with hk | hk | hk | hk <;> subst hk <;> decide
  have hPROV : SEMATTRS_GEN_AI_PROVIDER_NAME ≠ key := by
    rcases hkey with hk | hk | hk | hk <;> subst hk <;> decide
  have hAGENT : SEMATTRS_GEN_AI_AGENT_ID ≠ key := by
    rcases hkey with hk | hk | hk | hk <;> subst hk <;> decide
  have hUSER : SEMATTRS_ENDUSER_ID ≠ key := by
    rcases hkey with hk | hk | hk | hk <;> subst hk <;> decide
  have hCONV : SEMATTRS_GEN_AI_CONVERSATION_ID ≠ key := by
    rcases hkey with hk | hk | hk | hk <;> subst hk <;> decide
  have hRESP : SEMATTRS_GEN_AI_RESPONSE_ID ≠ key := by
    rcases hkey with hk | hk | hk | hk <;> subst hk <;> decide
  have hcc : keyWrittenB (ccStartItems (resolveConfig raw) args) key = false :=
    keyWritten_ccStartItems_nocap _ _ _ hcap hOP hPROV hAGENT hUSER
  have hsa : keyWrittenB (sAStartItems sargs) key = false :=
    keyWritten_sAStartItems _ _ hOP hPROV hCONV
  by_cases hen : (resolveConfig raw).enabled = true
  · constructor
    · cases o with
      | reject er =>
        have heq : patchedCreateConversation raw args (.reject er)
            = (ccStartItems (resolveConfig raw) args ++ catchItems 0 er,
               .reject er) := by
          unfold patchedCreateConversation
          simp [hen]
        rw [heq]
        simp only []
        rw [keyWrittenB_append, hcc, keyWritten_catchItems _ _ _ hET]
        rfl
      | resolve r =>
        by_cases hflag : r.errFlagged = true
        · have heq : patchedCreateConversation raw args (.resolve r)
              = (ccStartItems (resolveConfig raw) args
                   ++ errFlaggedItems 0 r.error ++ [TraceItem.endSpan 0],
                 .resolve r) := by
            unfold patchedCreateConversation
            simp [hen, hflag]
          rw [heq]
          simp only []
          rw [keyWrittenB_append, keyWrittenB_append, hcc,
            keyWritten_errFlaggedItems _ _ _ hET]
          simp [keyWrittenB]
        · have hflag' : r.errFlagged = false := by
            cases hb : r.errFlagged
            · rfl
            · exact absurd hb hflag
          cases hv : r.value with
          | none =>
            have heq : patchedCreateConversation raw args (.resolve r)
                = (ccStartItems (resolveConfig raw) args
                     ++ [TraceItem.endSpan 0], .resolve r) := by
              unfold patchedCreateConversation
              simp [hen, hflag', hv]
            rw [heq]
            simp only []
            rw [keyWrittenB_append, hcc]
            simp [keyWrittenB]
          | some v =>
            have heq : patchedCreateConversation raw args (.resolve r)
                = (ccStartItems (resolveConfig raw) args
                     ++ (TraceItem.setAttr 0 SEMATTRS_GEN_AI_CONVERSATION_ID
                           (optAttr v.conversationSId)
                         :: (if truthyS v.messageSId then
                               [TraceItem.setAttr 0 SEMATTRS_GEN_AI_RESPONSE_ID
                                  (.str (v.messageSId.getD ""))]
                             else []))
                     ++ [TraceItem.endSpan 0], .resolve r) := by
              unfold patchedCreateConversation
              simp [hen, hflag', hv]
            rw [heq]
            simp only []
            rw [keyWrittenB_append, keyWrittenB_append, hcc]
            cases hm : truthyS v.messageSId <;>
              simp [hm, keyWrittenB, hCONV, hRESP]
    · cases so with
      | reject er =>
        have heq : patchedStreamAgentAnswerEvents raw sargs (.reject er)
            = (sAStartItems sargs ++ catchItems 0 er, .reject er) := by
          unfold patchedStreamAgentAnswerEvents
          simp [hen]
        rw [heq]
        simp only []
        rw [keyWrittenB_append, hsa, keyWritten_catchItems _ _ _ hET]
        rfl
      | resolve sr =>
        by_cases hflag : sr.errFlagged = true
        · have heq : patchedStreamAgentAnswerEvents raw sargs (.resolve sr)
              = (sAStartItems sargs ++ errFlaggedItems 0 sr.error
                   ++ [TraceItem.endSpan 0], .resolve sr) := by
            unfold patchedStreamAgentAnswerEvents
            simp [hen, hflag]
          rw [heq]
          simp only []
          rw [keyWrittenB_append, keyWrittenB_append, hsa,
            keyWritten_errFlaggedItems _ _ _ hET]
          simp [keyWrittenB]
        · have hflag' : sr.errFlagged = false := by
            cases hb : sr.errFlagged
            · rfl
            · exact absurd hb hflag
          cases hv : sr.value with
          | none =>
            have heq : patchedStreamAgentAnswerEvents raw sargs (.resolve sr)
                = (sAStartItems sargs ++ catchItems 0 eventStreamTypeError,
                   .reject eventStreamTypeError) := by
              unfold patchedStreamAgentAnswerEvents
              simp [hen, hflag', hv]
            rw [heq]
            simp only []
            rw [keyWrittenB_append, hsa, keyWritten_catchItems _ _ _ hET]
            rfl
          | some v =>
            have heq : (patchedStreamAgentAnswerEvents raw sargs (.resolve sr)).1
                = sAStartItems sargs
                    ++ wrapEventStream (resolveConfig raw) 0 v.events
                        v.streamError := by
              unfold patchedStreamAgentAnswerEvents
              simp [hen, hflag', hv]
            rw [heq]
            rw [keyWrittenB_append, hsa,
              keyWritten_wrapEventStream_nocapture _ _ _ _ _ hcap hkey]
            rfl
  · have hen' : (resolveConfig raw).enabled = false := by
      cases hb : (resolveConfig raw).enabled
      · rfl
      · exact absurd hb hen
    constructor
    · unfold patchedCreateConversation
      simp [hen']
      rfl
    · unfold patchedStreamAgentAnswerEvents
      simp [hen']
      rfl

theorem C7_witness :
    keyWrittenB (patchedStreamAgentAnswerEvents rawCapOff
        { conversationSId := "c-1" } (.resolve sampleStreamResult)).1
      SEMATTRS_GEN_AI_TOOL_CALL_RESULT = false
    ∧ keyWrittenB (patchedCreateConversation rawCapOff ccArgsW
        (.resolve emptyIdResult)).1 SEMATTRS_GEN_AI_INPUT_MESSAGES = false := by
  have h1 := C7_no_content_attributes rawCapOff (by decide) ccArgsW
    (.resolve emptyIdResult) { conversationSId := "c-1" }
    (.resolve sampleStreamResult) SEMATTRS_GEN_AI_TOOL_CALL_RESULT
    (Or.inr (Or.inr (Or.inr rfl)))
  have h2 := C7_no_content_attributes rawCapOff (by decide) ccArgsW
    (.resolve emptyIdResult) { conversationSId := "c-1" }
    (.resolve sampleStreamResult) SEMATTRS_GEN_AI_INPUT_MESSAGES
    (Or.inl rfl)
  exact ⟨h1.2, h2.1⟩
